import Mathlib

/-!
# Cart, order and OTP handlers of `users_controller.js`

A shallow embedding of the request handlers in
`src/api/interface/controller/users_controller.js`.

* The four mongoose collections (`signup_user`, `addProduct_admin`, `cart`,
  `order`) are lists of documents in insertion order.  `findOne` returns the
  first matching document, `find` all matching documents, `save` and
  `updateOne` rewrite the first document selected by their filter,
  `deleteOne` removes the first match and `deleteMany` every match.
* Document identifiers are natural numbers drawn from a counter kept in the
  store, so an identifier is never handed out twice.
* `Date.now()`, `new Date()` and `moment()` are the explicit argument `now`
  (milliseconds, an integer); `Math.random` and `bcrypt.hash` results are
  explicit arguments as well.  The time zone of the host, which decides what
  `setDate(getDate() - 2)` yields, is the explicit argument `tz`.
* Quantities are natural numbers (the code only ever writes `1` and `+= 1`).
* A handler is a function from the store and the request body to a response
  and the next store.  Store operations are taken to succeed, except in
  `placeCartOrder`, whose `try`/`catch` path is modelled through an explicit
  fault schedule.
-/

namespace Stacky

abbrev Id := Nat
abbrev Time := Int

/-! ## Documents -/

structure User where
  _id : Id
  email : String
  username : Option String
  password : Option String
  otp : Option Nat
  otpExpiration : Option Time
  isOtpVerified : Bool
  status : Option Int
  insert_date_time : Option Time
deriving DecidableEq, Repr

structure Product where
  _id : Id
  productName : String
  price : Nat
  image : String
  description : String
  category : Option String
  quantity : Nat
deriving DecidableEq, Repr

structure UserDetail where
  username : Option String
  email : String
deriving DecidableEq, Repr

structure ProductDetail where
  productName : String
  price : Nat
  image : String
  description : String
  category : Option String
  quantity : Nat
deriving DecidableEq, Repr

structure CartItem where
  _id : Id
  userId : Id
  productId : Id
  quantity : Nat
  status : Int
  insert_date_time : Time
  softDeleteDate : Option Time
  userDetail : UserDetail
  productDetail : ProductDetail
deriving DecidableEq, Repr

/-- One element of `productDetails` in a cart order. -/
structure LineItem where
  productId : Id
  productName : String
  description : String
  price : Nat
  image : String
  category : Option String
deriving DecidableEq, Repr

/-- A JavaScript value as it occurs while `categoryQuantities` is filled: a
number, `NaN`, a string, or an object or function known by the string it
converts to. -/
inductive JsVal where
  | num (n : Nat)
  | nan
  | str (s : String)
  | obj (text : String)
deriving DecidableEq, Repr

/-- The own properties of a plain object, in insertion order. -/
abbrev JsObject := List (String × JsVal)

/-- The `productDetails` field of an order: one object (`buyNow`) or an array
(`placeCartOrder`). -/
inductive OrderProducts where
  | single (d : ProductDetail)
  | many (ds : List LineItem)
deriving DecidableEq, Repr

structure Order where
  _id : Id
  userId : Id
  productId : Option Id
  insert_date_time : Time
  address : String
  mobileno : String
  userDetails : UserDetail
  productDetails : OrderProducts
  totalQuantity : Option Nat
  categoryQuantities : Option JsObject
deriving DecidableEq, Repr

/-! ## The record store -/

structure Store where
  users : List User
  products : List Product
  cart : List CartItem
  orders : List Order
  nextId : Nat
deriving DecidableEq, Repr

/-- Rewrites the first element satisfying `p`, as `updateOne` and `save` do. -/
def updateFirst {α : Type} (p : α → Bool) (f : α → α) : List α → List α
  | [] => []
  | x :: xs => if p x then f x :: xs else x :: updateFirst p f xs

/-- Removes the first element satisfying `p`, as `deleteOne` does. -/
def deleteFirst {α : Type} (p : α → Bool) : List α → List α
  | [] => []
  | x :: xs => if p x then xs else x :: deleteFirst p xs

/-- Models `userSignup.findById`. -/
def findUserById (s : Store) (userId : Id) : Option User :=
  s.users.find? (fun u => u._id == userId)

/-- Models `addProducts.findById`. -/
def findProductById (s : Store) (productId : Id) : Option Product :=
  s.products.find? (fun p => p._id == productId)

/-- Models `cart.findOne({ userId, productId })`. -/
def cartFindOne (s : Store) (userId productId : Id) : Option CartItem :=
  s.cart.find? (fun c => c.userId == userId && c.productId == productId)

/-- Models `cart.find({ userId })`. -/
def cartFind (s : Store) (userId : Id) : List CartItem :=
  s.cart.filter (fun c => c.userId == userId)

/-- Models `doc.save()` on a cart document: the modified paths, given as `f`,
are written to the document whose `_id` is `id`. -/
def cartSave (s : Store) (id : Id) (f : CartItem → CartItem) : Store :=
  { s with cart := updateFirst (fun c => c._id == id) f s.cart }

/-- Models `cart.create(doc)`: the document receives a fresh `_id`. -/
def cartCreate (s : Store) (doc : CartItem) : Store :=
  { s with cart := s.cart ++ [{ doc with _id := s.nextId }], nextId := s.nextId + 1 }

/-- Models `cart.deleteOne({ _id })`. -/
def cartDeleteOne (s : Store) (id : Id) : Store :=
  { s with cart := deleteFirst (fun c => c._id == id) s.cart }

/-- Models `cart.deleteMany({ userId })`. -/
def cartDeleteMany (s : Store) (userId : Id) : Store :=
  { s with cart := s.cart.filter (fun c => !(c.userId == userId)) }

/-- Models `order.findOne({ userId, productId })`. -/
def orderFindOne (s : Store) (userId productId : Id) : Option Order :=
  s.orders.find? (fun o => o.userId == userId && o.productId == some productId)

/-- Models `new order(data).save()`: the document receives a fresh `_id`. -/
def orderSave (s : Store) (doc : Order) : Store :=
  { s with orders := s.orders ++ [{ doc with _id := s.nextId }], nextId := s.nextId + 1 }

/-- Cart identifiers are pairwise distinct and were all handed out already. -/
def CartWF (s : Store) : Prop :=
  (s.cart.map (fun c => c._id)).Nodup ∧ ∀ c ∈ s.cart, c._id < s.nextId

instance (s : Store) : Decidable (CartWF s) := by
  unfold CartWF; infer_instance

/-! ## Responses -/

/-- Models `SuccessResponse(res, message, data)` and `ErrorResponse(res, message)`. -/
inductive Response (α : Type) where
  | success (message : String) (data : α)
  | error (message : String)
deriving DecidableEq, Repr

def Response.isSuccess {α : Type} : Response α → Bool
  | .success _ _ => true
  | .error _ => false

/-! ## Cart handlers -/

/-- A cart document with its `productId` and `userId` references resolved by
`populate`; an unresolved reference is `none` (JavaScript `null`). -/
structure PopulatedCartItem where
  doc : CartItem
  productId : Option Product
  userId : Option User
deriving DecidableEq, Repr

/-- Models `cart.find({ userId }).populate(productId).populate(userId)`. -/
def cartFindPopulated (s : Store) (userId : Id) : List PopulatedCartItem :=
  (cartFind s userId).map fun c =>
    { doc := c, productId := findProductById s c.productId, userId := findUserById s c.userId }

/-- The object literal `newCartItem` of `addToCart`; `_id` is assigned by
`cart.create`. -/
def newCartItem (user : User) (product : Product) (now : Time) (userId productId : Id) :
    CartItem :=
  { _id := 0
    userId := userId
    productId := productId
    quantity := 1
    status := 1
    insert_date_time := now
    softDeleteDate := none
    userDetail := { username := user.username, email := user.email }
    productDetail :=
      { productName := product.productName
        price := product.price
        image := product.image
        description := product.description
        category := product.category
        quantity := product.quantity } }

/-- Models `addToCart`. -/
def addToCart (s : Store) (now : Time) (userId productId : Id) :
    Response (List PopulatedCartItem) × Store :=
  match findProductById s productId with
  | none => (.error "Product not found.", s)
  | some product =>
    match findUserById s userId with
    | none => (.error "User not found.", s)
    | some user =>
      let s1 :=
        match cartFindOne s userId productId with
        | some cartItem =>
          cartSave s cartItem._id (fun c => { c with quantity := cartItem.quantity + 1 })
        | none => cartCreate s (newCartItem user product now userId productId)
      (.success "Product added to cart successfully." (cartFindPopulated s1 userId), s1)

/-- The delay that `removeFromCart` passes to `setTimeout`,
`2 * 24 * 60 * 60 * 1000` milliseconds. -/
def retentionMs : Int := 2 * 24 * 60 * 60 * 1000

/-- A pending `setTimeout` of `removeFromCart`: its delay and the `_id` the
callback captured. -/
structure Timer where
  delay : Int
  cartItemId : Id
deriving DecidableEq, Repr

/-- Models the filter `{ _id, status: -9, softDeleteDate: { $lte: twoDaysAgo } }`;
a document without `softDeleteDate` does not match. -/
def dueForDeletion (id : Id) (twoDaysAgo : Time) (c : CartItem) : Bool :=
  c._id == id && c.status == -9 &&
    (match c.softDeleteDate with
     | some d => decide (d ≤ twoDaysAgo)
     | none => false)

/-- The number of milliseconds in a day. -/
def msPerDay : Int := 86400000

/-- The time zone of the host, given by the two offset functions of the
language standard: `offset t` is the number of milliseconds that the local
clock is ahead of UTC at the instant `t`, and `localOffset l` is the offset
under which the local time value `l` is read back as an instant (a repeated or
skipped local time is read with the offset in force before the change). -/
structure TimeZone where
  offset : Time → Int
  localOffset : Time → Int

/-- Models `LocalTime(t)`. -/
def TimeZone.localTime (tz : TimeZone) (t : Time) : Time :=
  t + tz.offset t

/-- Models `UTC(l)`. -/
def TimeZone.utc (tz : TimeZone) (l : Time) : Time :=
  l - tz.localOffset l

/-- Models `const twoDaysAgo = new Date(); twoDaysAgo.setDate(twoDaysAgo.getDate() - 2)`
run at the instant `now`: the local date is moved back two calendar days, the
local time of day is kept, and the result is read back as an instant. -/
def twoDaysAgo (tz : TimeZone) (now : Time) : Time :=
  tz.utc (tz.localTime now - 2 * msPerDay)

/-- A zone whose clock is always `off` milliseconds ahead of UTC. -/
def fixedZone (off : Int) : TimeZone :=
  { offset := fun _ => off, localOffset := fun _ => off }

/-- The zone `UTC`. -/
def utcZone : TimeZone := fixedZone 0

/-- The zone `America/New_York` during 2026: UTC-5 until 2026-03-08T07:00Z,
then UTC-4 until 2026-11-01T06:00Z, then UTC-5 again.  Local times are read
back with the offset in force before each change. -/
def newYork2026 : TimeZone :=
  { offset := fun t =>
      if t < 1772953200000 then -18000000
      else if t < 1793512800000 then -14400000
      else -18000000
    localOffset := fun l =>
      if l < 1772953200000 - 14400000 then -18000000
      else if l < 1793512800000 - 14400000 then -14400000
      else -18000000 }

/-- Models the callback that `removeFromCart` passes to `setTimeout`, run at
time `now` in the zone `tz` with the captured `cartItem._id`. -/
def cleanup (tz : TimeZone) (s : Store) (now : Time) (cartItemId : Id) : Store :=
  match s.cart.find? (dueForDeletion cartItemId (twoDaysAgo tz now)) with
  | some itemToDelete => cartDeleteOne s itemToDelete._id
  | none => s

/-- Models `removeFromCart`; the third component is the timer it schedules. -/
def removeFromCart (s : Store) (now : Time) (userId productId : Id) :
    Response CartItem × Store × Option Timer :=
  match cartFindOne s userId productId with
  | none => (.error "Cart item not found.", s, none)
  | some cartItem =>
    let s1 := cartSave s cartItem._id
      (fun c => { c with status := -9, softDeleteDate := some now })
    (.success
        "Cart item marked for deletion (soft delete). It will be permanently removed after 2 days."
        { cartItem with status := -9, softDeleteDate := some now },
      s1, some { delay := retentionMs, cartItemId := cartItem._id })

/-- Models `getCartItems`. -/
def getCartItems (s : Store) (userId : Id) : Response (List CartItem) × Store :=
  (.success "Products found successfully." (cartFind s userId), s)

/-! ## Order handlers -/

/-- Models `buyNow`. -/
def buyNow (s : Store) (now : Time) (userId productId : Id) (address mobileno : String) :
    Response Order × Store :=
  match findProductById s productId with
  | none => (.error "Product not found.", s)
  | some product =>
    match findUserById s userId with
    | none => (.error "User not found.", s)
    | some user =>
      match orderFindOne s userId productId with
      | some _ => (.error "Order for this product already exists.", s)
      | none =>
        let orderData : Order :=
          { _id := s.nextId
            userId := userId
            productId := some productId
            insert_date_time := now
            address := address
            mobileno := mobileno
            userDetails := { username := user.username, email := user.email }
            productDetails := .single
              { productName := product.productName
                description := product.description
                price := product.price
                image := product.image
                category := product.category
                quantity := product.quantity }
            totalQuantity := none
            categoryQuantities := none }
        (.success "Order placed successfully" orderData, orderSave s orderData)

/-- Whether a value is truthy. -/
def JsVal.truthy : JsVal → Bool
  | .num n => n != 0
  | .nan => false
  | .str s => s != ""
  | .obj _ => true

/-- The methods every plain object inherits from `Object.prototype`, each with
the name of the native function stored under it. -/
def objectPrototypeMethods : List (String × String) :=
  [("constructor", "Object"), ("hasOwnProperty", "hasOwnProperty"),
   ("isPrototypeOf", "isPrototypeOf"), ("propertyIsEnumerable", "propertyIsEnumerable"),
   ("toLocaleString", "toLocaleString"), ("toString", "toString"), ("valueOf", "valueOf"),
   ("__defineGetter__", "__defineGetter__"), ("__defineSetter__", "__defineSetter__"),
   ("__lookupGetter__", "__lookupGetter__"), ("__lookupSetter__", "__lookupSetter__")]

/-- The value a plain object inherits under `key`, if any: `__proto__` reads
as the prototype object, a method name as a native function. -/
def objectPrototype (key : String) : Option JsVal :=
  if key == "__proto__" then some (.obj "[object Object]")
  else
    match objectPrototypeMethods.find? (fun m => m.1 == key) with
    | some m => some (.obj ("function " ++ m.2 ++ "() \x7b [native code] \x7d"))
    | none => none

/-- The own property `key` of an object. -/
def JsObject.getOwn (o : JsObject) (key : String) : Option JsVal :=
  (o.find? (fun kv => kv.1 == key)).map (fun kv => kv.2)

/-- Models the read `o[key]`: the own property, else the inherited one, else
`undefined` (`none`). -/
def JsObject.get (o : JsObject) (key : String) : Option JsVal :=
  match o.getOwn key with
  | some v => some v
  | none => objectPrototype key

/-- Models the assignment `o[key] = v` of a number or string: an own property
is overwritten in place or appended; under `__proto__` the inherited setter
ignores the value. -/
def JsObject.set (o : JsObject) (key : String) (v : JsVal) : JsObject :=
  if key == "__proto__" then o
  else if o.any (fun kv => kv.1 == key) then
    updateFirst (fun kv => kv.1 == key) (fun kv => (kv.1, v)) o
  else o ++ [(key, v)]

/-- Models `x + quantity` for `x` read from an object (`none` is `undefined`). -/
def jsPlus (x : Option JsVal) (quantity : Nat) : JsVal :=
  match x with
  | some (.num n) => .num (n + quantity)
  | some .nan => .nan
  | some (.str s) => .str (s ++ toString quantity)
  | some (.obj text) => .str (text ++ toString quantity)
  | none => .nan

/-- Whether `!category` holds: the category is missing or the empty string. -/
def categoryMissing : Option String → Bool
  | none => true
  | some c => c == ""

/-- Models the body of `cartItems.forEach` in `placeCartOrder` for one item
with a resolved product. -/
def tallyCategory (categoryQuantities : JsObject) (item : CartItem × Product) : JsObject :=
  match item.2.category with
  | none => categoryQuantities
  | some category =>
    if category == "" then categoryQuantities
    else
      let o1 :=
        if !((categoryQuantities.get category).map JsVal.truthy).getD false then
          categoryQuantities.set category (.num 0)
        else categoryQuantities
      o1.set category (jsPlus (o1.get category) item.1.quantity)

/-- Which awaited store operation of `placeCartOrder` rejects, if any. -/
structure PlaceOrderFaults where
  findUser : Bool
  findCart : Bool
  saveOrder : Bool
  deleteCart : Bool
deriving DecidableEq, Repr

def noFaults : PlaceOrderFaults :=
  { findUser := false, findCart := false, saveOrder := false, deleteCart := false }

/-- Models `cart.find({ userId }).populate(productId)`; an unresolved product
is `none`. -/
def cartFindWithProducts (s : Store) (userId : Id) : List (CartItem × Option Product) :=
  (cartFind s userId).map fun c => (c, findProductById s c.productId)

/-- Reading `item.productId.category` throws on an unresolved product, so the
loop completes only if every product resolved. -/
def resolveAll : List (CartItem × Option Product) → Option (List (CartItem × Product))
  | [] => some []
  | (c, some p) :: rest => (resolveAll rest).map (fun r => (c, p) :: r)
  | (_, none) :: _ => none

/-- The response of the `catch` block of `placeCartOrder`. -/
def placeOrderFailure : Response Order := .error "An error occurred while placing the order."

/-- The object literal `orderData` of `placeCartOrder`, with `totalQuantity`
reduced over the cart items and `categoryQuantities` filled by the `forEach`. -/
def cartOrderData (s : Store) (now : Time) (userId : Id) (mobileno address : String)
    (user : User) (cartItems : List (CartItem × Option Product))
    (items : List (CartItem × Product)) : Order :=
  { _id := s.nextId
    userId := userId
    productId := none
    insert_date_time := now
    address := address
    mobileno := mobileno
    userDetails := { username := user.username, email := user.email }
    productDetails := .many (items.map fun item =>
      { productId := item.2._id
        productName := item.2.productName
        description := item.2.description
        price := item.2.price
        image := item.2.image
        category := item.2.category })
    totalQuantity := some (cartItems.foldl (fun sum item => sum + item.1.quantity) 0)
    categoryQuantities := some (items.foldl tallyCategory []) }

/-- Models `placeCartOrder`; `flt` says which store operation rejects. -/
def placeCartOrder (flt : PlaceOrderFaults) (s : Store) (now : Time) (userId : Id)
    (mobileno address : String) : Response Order × Store :=
  if flt.findUser then (placeOrderFailure, s)
  else
    match findUserById s userId with
    | none => (.error "User not found.", s)
    | some user =>
      if flt.findCart then (placeOrderFailure, s)
      else
        let cartItems := cartFindWithProducts s userId
        if cartItems.length = 0 then (.error "Cart is empty.", s)
        else
          match resolveAll cartItems with
          | none => (placeOrderFailure, s)
          | some items =>
            let orderData := cartOrderData s now userId mobileno address user cartItems items
            if flt.saveOrder then (placeOrderFailure, s)
            else
              let s1 := orderSave s orderData
              if flt.deleteCart then (placeOrderFailure, s1)
              else (.success "Order placed successfully" orderData, cartDeleteMany s1 userId)

/-! ## OTP handlers -/

/-- Models `userSignup.findOne({ email })`. -/
def userFindOne (s : Store) (email : String) : Option User :=
  s.users.find? (fun u => u.email == email)

/-- Models `user.save()`: the modified paths are written to the document whose
`_id` is `id`. -/
def userSave (s : Store) (id : Id) (f : User → User) : Store :=
  { s with users := updateFirst (fun u => u._id == id) f s.users }

/-- Models `userSignup.updateOne({ email }, { otp, otpExpiration }, { upsert: true })`. -/
def userUpsertOtp (s : Store) (email : String) (otp : Nat) (otpExpiration : Time) : Store :=
  if s.users.any (fun u => u.email == email) then
    { s with
      users := updateFirst (fun u => u.email == email)
        (fun u => { u with otp := some otp, otpExpiration := some otpExpiration }) s.users }
  else
    { s with
      users := s.users ++
        [{ _id := s.nextId, email := email, username := none, password := none,
           otp := some otp, otpExpiration := some otpExpiration, isOtpVerified := false,
           status := none, insert_date_time := none }]
      nextId := s.nextId + 1 }

/-- The lifetime of an OTP, `10 * 60 * 1000` milliseconds. -/
def otpLifetimeMs : Int := 10 * 60 * 1000

/-- Models `user.otpExpiration && Date.now() > user.otpExpiration`. -/
def otpExpired (user : User) (now : Time) : Bool :=
  match user.otpExpiration with
  | some e => e != 0 && decide (now > e)
  | none => false

/-- Models `UserOtpGenerate`; `otp` is the number drawn from `Math.random`. -/
def UserOtpGenerate (s : Store) (now : Time) (otp : Nat) (email : String) :
    Response String × Store :=
  (.success "OTP sent to your email. Please verify to complete registration." email,
    userUpsertOtp s email otp (now + otpLifetimeMs))

/-- Models `UserSignup`; `hashedPassword` is the result of `bcrypt.hash`, and
the payload is the saved user without its password (the token is left out). -/
def UserSignup (s : Store) (now : Time) (email : String) (otp : Option Nat)
    (username hashedPassword : String) : Response User × Store :=
  match userFindOne s email with
  | none => (.error "No such user found. Please initiate signup first.", s)
  | some user =>
    if user.otp != otp then (.error "Invalid OTP.", s)
    else if otpExpired user now then (.error "OTP expired. Please request a new one.", s)
    else
      let upd : User → User := fun u =>
        { u with
          password := some hashedPassword
          username := some username
          otp := none
          otpExpiration := none
          status := some 1
          insert_date_time := some now }
      (.success "User registered successfully" { (upd user) with password := none },
        userSave s user._id upd)

/-- Models `UserOtpForPass`; `otp` is the number drawn from `Math.random`. -/
def UserOtpForPass (s : Store) (now : Time) (otp : Nat) (email : String) :
    Response String × Store :=
  match userFindOne s email with
  | none => (.error "User not found.", s)
  | some _ =>
    (.success "OTP sent to your email. Please verify to complete password reset." email,
      userUpsertOtp s email otp (now + otpLifetimeMs))

/-- Models `UserVerifyOtp`. -/
def UserVerifyOtp (s : Store) (now : Time) (email : String) (otp : Option Nat) :
    Response String × Store :=
  match userFindOne s email with
  | none => (.error "User not found.", s)
  | some user =>
    if user.otp != otp then (.error "Invalid OTP.", s)
    else if otpExpired user now then (.error "OTP expired. Please request a new one.", s)
    else
      (.success "OTP verified successfully." email,
        userSave s user._id
          (fun u => { u with isOtpVerified := true, otp := none, otpExpiration := none }))

/-- Models `UpdatePassword`; `hashedPassword` is the result of `bcrypt.hash`. -/
def UpdatePassword (s : Store) (email hashedPassword : String) : Response String × Store :=
  match userFindOne s email with
  | none => (.error "User not found.", s)
  | some user =>
    if !user.isOtpVerified then
      (.error "OTP verification required before updating password.", s)
    else
      (.success "Password updated successfully." email,
        userSave s user._id
          (fun u => { u with password := some hashedPassword, isOtpVerified := false }))

/-- User identifiers are pairwise distinct. -/
def UsersWF (s : Store) : Prop :=
  (s.users.map (fun u => u._id)).Nodup

instance (s : Store) : Decidable (UsersWF s) := by
  unfold UsersWF; infer_instance

/-! ## Sequences of requests and callbacks -/

/-- A request or a timer callback, with its arguments. -/
inductive Event where
  | add (now : Time) (userId productId : Id)
  | remove (now : Time) (userId productId : Id)
  | list (userId : Id)
  | buy (now : Time) (userId productId : Id) (address mobileno : String)
  | placeOrder (flt : PlaceOrderFaults) (now : Time) (userId : Id)
      (mobileno address : String)
  | timer (now : Time) (cartItemId : Id)
  | otpGenerate (now : Time) (otp : Nat) (email : String)
  | signup (now : Time) (email : String) (otp : Option Nat)
      (username hashedPassword : String)
  | otpForPass (now : Time) (otp : Nat) (email : String)
  | verifyOtp (now : Time) (email : String) (otp : Option Nat)
  | newPassword (email hashedPassword : String)

/-- The store after one event. -/
def Event.apply (tz : TimeZone) (s : Store) : Event → Store
  | .add now userId productId => (addToCart s now userId productId).2
  | .remove now userId productId => (removeFromCart s now userId productId).2.1
  | .list userId => (getCartItems s userId).2
  | .buy now userId productId address mobileno =>
    (buyNow s now userId productId address mobileno).2
  | .placeOrder flt now userId mobileno address =>
    (placeCartOrder flt s now userId mobileno address).2
  | .timer now cartItemId => cleanup tz s now cartItemId
  | .otpGenerate now otp email => (UserOtpGenerate s now otp email).2
  | .signup now email otp username hashedPassword =>
    (UserSignup s now email otp username hashedPassword).2
  | .otpForPass now otp email => (UserOtpForPass s now otp email).2
  | .verifyOtp now email otp => (UserVerifyOtp s now email otp).2
  | .newPassword email hashedPassword => (UpdatePassword s email hashedPassword).2

/-- The store after a sequence of events. -/
def runEvents (tz : TimeZone) (s : Store) (events : List Event) : Store :=
  events.foldl (Event.apply tz) s

/-- Events that leave in place a cart row of user `u` removed at time `t`:
anything but a cart order of `u`, a cleanup whose threshold has reached `t`,
or a removal stamped earlier than `t`. -/
def Event.keepsRow (tz : TimeZone) (u : Id) (t : Time) : Event → Bool
  | .placeOrder _ _ userId _ _ => userId != u
  | .timer now _ => decide (twoDaysAgo tz now < t)
  | .remove now _ _ => decide (t ≤ now)
  | _ => true

/-- The store holds a soft-deleted row `id` of user `u` for product `p` whose
`softDeleteDate` is `t` or later, and its cart identifiers are in order. -/
def RowKept (id u p : Id) (t : Time) (s : Store) : Prop :=
  CartWF s ∧ ∃ row ∈ s.cart, row._id = id ∧ row.userId = u ∧ row.productId = p ∧
    row.status = -9 ∧ ∃ d, row.softDeleteDate = some d ∧ t ≤ d

/-- Whether an item with a resolved product counts towards category `c`: its
product has category `c`, and `c` is not the empty string. -/
def countsFor (c : String) (item : CartItem × Product) : Bool :=
  item.2.category == some c && c != ""

/-- The sum the specification asks for under category `c`: the quantities of
exactly those items whose product category is `c`. -/
def specCategoryQuantity (items : List (CartItem × Product)) (c : String) : Nat :=
  ((items.filter (countsFor c)).map (fun item => item.1.quantity)).sum

/-! ## Sample data -/

def ann : User :=
  { _id := 1, email := "ann@shop.test", username := some "ann", password := some "h1",
    otp := none, otpExpiration := none, isOtpVerified := false, status := some 1,
    insert_date_time := some 0 }

def ben : User :=
  { _id := 2, email := "ben@shop.test", username := some "ben", password := some "h2",
    otp := none, otpExpiration := none, isOtpVerified := false, status := some 1,
    insert_date_time := some 0 }

def shirt : Product :=
  { _id := 10, productName := "shirt", price := 20, image := "shirt.png",
    description := "cotton shirt", category := some "clothing", quantity := 7 }

def mug : Product :=
  { _id := 11, productName := "mug", price := 8, image := "mug.png",
    description := "stoneware mug", category := some "kitchen", quantity := 30 }

def kit : Product :=
  { _id := 12, productName := "kit", price := 45, image := "kit.png",
    description := "model building kit", category := some "constructor", quantity := 4 }

/-- The cart row that `addToCart` writes for `user` and `product`. -/
def sampleRow (id : Id) (user : User) (product : Product) (quantity : Nat) : CartItem :=
  { newCartItem user product 0 user._id product._id with _id := id, quantity := quantity }

/-- Two users, three products, no cart rows and no orders. -/
def sampleStore : Store :=
  { users := [ann, ben], products := [shirt, mug, kit], cart := [], orders := [], nextId := 100 }

/-- Ann holds two shirts and three mugs, Ben one shirt. -/
def cartStore : Store :=
  { sampleStore with
    cart := [sampleRow 100 ann shirt 2, sampleRow 101 ann mug 3, sampleRow 102 ben shirt 1]
    nextId := 103 }

/-- Ann removed her shirts at time 1000; Ben still holds one shirt. -/
def removedStore : Store :=
  { sampleStore with
    cart := [{ sampleRow 100 ann shirt 2 with status := -9, softDeleteDate := some 1000 },
             sampleRow 102 ben shirt 1]
    nextId := 103 }

/-- Ann holds two kits, whose category is the string `constructor`. -/
def kitStore : Store :=
  { sampleStore with cart := [sampleRow 100 ann kit 2], nextId := 101 }

/-- A store without any document. -/
def emptyStore : Store :=
  { users := [], products := [], cart := [], orders := [], nextId := 1 }

/-- The store after a signup and a verified password-reset OTP, followed by the
request of one more OTP. -/
def otpStore : Store :=
  let s1 := (UserOtpGenerate emptyStore 0 1111 "ann@shop.test").2
  let s2 := (UserSignup s1 1000 "ann@shop.test" (some 1111) "ann" "h1").2
  let s3 := (UserOtpForPass s2 2000 2222 "ann@shop.test").2
  let s4 := (UserVerifyOtp s3 3000 "ann@shop.test" (some 2222)).2
  (UserOtpForPass s4 4000 3333 "ann@shop.test").2

/-! # Theorems -/

/-! ## Lists as collections -/

theorem updateFirst_append_last {α : Type} (p : α → Bool) (f : α → α) (l : List α) (y : α)
    (h : ∀ x ∈ l, p x = false) :
    updateFirst p f (l ++ [y]) = l ++ [if p y then f y else y] := by
  induction l with
  | nil => by_cases hy : p y <;> simp [updateFirst, hy]
  | cons a l ih =>
    have ha : p a = false := h a (List.mem_cons_self a l)
    have hl : ∀ x ∈ l, p x = false := fun x hx => h x (List.mem_cons_of_mem a hx)
    simp [updateFirst, ha, ih hl]

theorem updateFirst_eq_map {α : Type} (key : α → Nat) (i : Nat) (f : α → α) (l : List α)
    (hnd : (l.map key).Nodup) :
    updateFirst (fun x => key x == i) f l = l.map (fun x => if key x = i then f x else x) := by
  induction l with
  | nil => rfl
  | cons a l ih =>
    rw [List.map_cons, List.nodup_cons] at hnd
    by_cases ha : key a = i
    · have hrest : ∀ x ∈ l, (if key x = i then f x else x) = x := by
        intro x hx
        have hne : key x ≠ i := by
          intro hxi
          exact hnd.1 (List.mem_map.mpr ⟨x, hx, by rw [hxi, ha]⟩)
        simp [hne]
      have hmap : l.map (fun x => if key x = i then f x else x) = l := by
        conv_rhs => rw [← List.map_id l]
        exact List.map_congr_left hrest
      simp [updateFirst, ha, hmap]
    · simp [updateFirst, ha, ih hnd.2]

theorem deleteFirst_eq_filter {α : Type} (key : α → Nat) (i : Nat) (l : List α)
    (hnd : (l.map key).Nodup) :
    deleteFirst (fun x => key x == i) l = l.filter (fun x => !(key x == i)) := by
  induction l with
  | nil => rfl
  | cons a l ih =>
    rw [List.map_cons, List.nodup_cons] at hnd
    by_cases ha : key a = i
    · have hrest : ∀ x ∈ l, (!(key x == i)) = true := by
        intro x hx
        have hne : key x ≠ i := by
          intro hxi
          exact hnd.1 (List.mem_map.mpr ⟨x, hx, by rw [hxi, ha]⟩)
        simp [hne]
      simp [deleteFirst, ha, List.filter_eq_self.mpr hrest]
    · simp [deleteFirst, ha, ih hnd.2]

theorem find?_append_last {α : Type} (p : α → Bool) (l : List α) (y : α)
    (h : l.find? p = none) (hy : p y = true) : (l ++ [y]).find? p = some y := by
  simp [List.find?_append, h, hy]

theorem filter_append_last {α : Type} (p : α → Bool) (l : List α) (y : α)
    (h : l.find? p = none) (hy : p y = true) : (l ++ [y]).filter p = [y] := by
  have hl : l.filter p = [] := by
    rw [List.filter_eq_nil_iff]
    intro x hx
    have := List.find?_eq_none.mp h x hx
    simpa using this
  simp [List.filter_append, hl, hy]

/-! ## addToCart -/

theorem addToCart_insert (s : Store) (now : Time) (u p : Id) (product : Product) (user : User)
    (hprod : findProductById s p = some product) (huser : findUserById s u = some user)
    (hno : cartFindOne s u p = none) :
    (addToCart s now u p).1.isSuccess = true ∧
      (addToCart s now u p).2 = cartCreate s (newCartItem user product now u p) := by
  simp [addToCart, hprod, huser, hno, Response.isSuccess]

theorem addToCart_increment (s : Store) (now : Time) (u p : Id) (product : Product)
    (user : User) (item : CartItem)
    (hprod : findProductById s p = some product) (huser : findUserById s u = some user)
    (hitem : cartFindOne s u p = some item) :
    (addToCart s now u p).1.isSuccess = true ∧
      (addToCart s now u p).2 =
        cartSave s item._id (fun c => { c with quantity := item.quantity + 1 }) := by
  simp [addToCart, hprod, huser, hitem, Response.isSuccess]

/-- C1: with product `p` and user `u` present and no cart item for `(u, p)`,
the first `addToCart` appends one row with quantity 1 and status 1, the second
increments that row, and afterwards the rows for `(u, p)` are exactly that one
row with quantity 2. -/
theorem addToCart_twice_one_row (s : Store) (now1 now2 : Time) (u p : Id)
    (hwf : CartWF s)
    (hp : (findProductById s p).isSome = true) (hu : (findUserById s u).isSome = true)
    (hno : cartFindOne s u p = none) :
    ∃ row : CartItem,
      row.userId = u ∧ row.productId = p ∧ row.quantity = 1 ∧ row.status = 1 ∧
      (addToCart s now1 u p).1.isSuccess = true ∧
      (addToCart s now1 u p).2.cart = s.cart ++ [row] ∧
      (addToCart (addToCart s now1 u p).2 now2 u p).1.isSuccess = true ∧
      (addToCart (addToCart s now1 u p).2 now2 u p).2.cart
        = s.cart ++ [{ row with quantity := 2 }] ∧
      (addToCart (addToCart s now1 u p).2 now2 u p).2.cart.filter
          (fun c => c.userId == u && c.productId == p)
        = [{ row with quantity := 2 }] := by
  obtain ⟨product, hprod⟩ := Option.isSome_iff_exists.mp hp
  obtain ⟨user, huser⟩ := Option.isSome_iff_exists.mp hu
  have hfresh : ∀ x ∈ s.cart, (x._id == s.nextId) = false := by
    intro x hx
    exact beq_false_of_ne (Nat.ne_of_lt (hwf.2 x hx))
  have hno' : s.cart.find? (fun c => c.userId == u && c.productId == p) = none := hno
  obtain ⟨hok1, hs1⟩ := addToCart_insert s now1 u p product user hprod huser hno
  have hrow : cartFindOne (cartCreate s (newCartItem user product now1 u p)) u p
      = some { newCartItem user product now1 u p with _id := s.nextId } := by
    simp only [cartFindOne, cartCreate]
    exact find?_append_last _ _ _ hno' (by simp [newCartItem])
  obtain ⟨hok2, hs2⟩ := addToCart_increment (cartCreate s (newCartItem user product now1 u p))
    now2 u p product user _ hprod huser hrow
  have hcart2 : (cartSave (cartCreate s (newCartItem user product now1 u p)) s.nextId
      (fun c => { c with quantity := 1 + 1 })).cart
      = s.cart ++ [{ newCartItem user product now1 u p with _id := s.nextId, quantity := 2 }] := by
    simp only [cartSave, cartCreate]
    rw [updateFirst_append_last _ _ _ _ hfresh]
    simp
  refine ⟨{ newCartItem user product now1 u p with _id := s.nextId },
    rfl, rfl, rfl, rfl, hok1, ?_, ?_, ?_, ?_⟩
  · rw [hs1]; rfl
  · rw [hs1]; exact hok2
  · rw [hs1, hs2]; exact hcart2
  · rw [hs1, hs2]
    show List.filter _ (cartSave (cartCreate s (newCartItem user product now1 u p)) s.nextId
      (fun c => { c with quantity := 1 + 1 })).cart = _
    rw [hcart2]
    exact filter_append_last _ _ _ hno' (by simp [newCartItem])

/-! ## buyNow and placeCartOrder -/

/-- C3: with product `p` and user `u` present and no order for `(u, p)`, the
first `buyNow` succeeds, the second returns the failure "Order for this product
already exists." and changes nothing, so the store holds exactly one order for
`(u, p)`; and in any store that already holds an order for `(u, p)`, `buyNow`
fails and leaves the store unchanged. -/
theorem buyNow_twice_conflict (s : Store) (now1 now2 : Time) (u p : Id)
    (address mobileno address2 mobileno2 : String)
    (hp : (findProductById s p).isSome = true) (hu : (findUserById s u).isSome = true)
    (hno : orderFindOne s u p = none) :
    (buyNow s now1 u p address mobileno).1.isSuccess = true ∧
    buyNow (buyNow s now1 u p address mobileno).2 now2 u p address2 mobileno2
      = (.error "Order for this product already exists.",
          (buyNow s now1 u p address mobileno).2) ∧
    (∃ o : Order, o.userId = u ∧ o.productId = some p ∧
      (buyNow s now1 u p address mobileno).2.orders = s.orders ++ [o] ∧
      (buyNow (buyNow s now1 u p address mobileno).2 now2 u p address2 mobileno2).2.orders.filter
          (fun o => o.userId == u && o.productId == some p) = [o]) ∧
    (∀ (s' : Store) (now' : Time) (address' mobileno' : String),
      (orderFindOne s' u p).isSome = true →
        (buyNow s' now' u p address' mobileno').1.isSuccess = false ∧
        (buyNow s' now' u p address' mobileno').2 = s') := by
  obtain ⟨product, hprod⟩ := Option.isSome_iff_exists.mp hp
  obtain ⟨user, huser⟩ := Option.isSome_iff_exists.mp hu
  have hno' : s.orders.find? (fun o => o.userId == u && o.productId == some p) = none := hno
  have hgen : ∀ (s' : Store) (now' : Time) (address' mobileno' : String),
      (orderFindOne s' u p).isSome = true →
        (buyNow s' now' u p address' mobileno').1.isSuccess = false ∧
        (buyNow s' now' u p address' mobileno').2 = s' := by
    intro s' now' address' mobileno' hex
    obtain ⟨o, ho⟩ := Option.isSome_iff_exists.mp hex
    unfold buyNow
    split
    · exact ⟨rfl, rfl⟩
    · split
      · exact ⟨rfl, rfl⟩
      · simp [ho, Response.isSuccess]
  have h1 : buyNow s now1 u p address mobileno =
      (.success "Order placed successfully"
        { _id := s.nextId, userId := u, productId := some p, insert_date_time := now1,
          address := address, mobileno := mobileno,
          userDetails := { username := user.username, email := user.email },
          productDetails := .single
            { productName := product.productName, description := product.description,
              price := product.price, image := product.image, category := product.category,
              quantity := product.quantity },
          totalQuantity := none, categoryQuantities := none },
       orderSave s
        { _id := s.nextId, userId := u, productId := some p, insert_date_time := now1,
          address := address, mobileno := mobileno,
          userDetails := { username := user.username, email := user.email },
          productDetails := .single
            { productName := product.productName, description := product.description,
              price := product.price, image := product.image, category := product.category,
              quantity := product.quantity },
          totalQuantity := none, categoryQuantities := none }) := by
    simp [buyNow, hprod, huser, hno]
  rw [h1]
  have hfound : ∀ d : Order, d.userId = u → d.productId = some p →
      orderFindOne (orderSave s d) u p = some { d with _id := s.nextId } := by
    intro d hdu hdp
    simp only [orderFindOne, orderSave]
    exact find?_append_last _ _ _ hno' (by simp [hdu, hdp])
  have h2 : ∀ d : Order, d.userId = u → d.productId = some p →
      buyNow (orderSave s d) now2 u p address2 mobileno2
        = (.error "Order for this product already exists.", orderSave s d) := by
    intro d hdu hdp
    have hprod1 : findProductById (orderSave s d) p = some product := hprod
    have huser1 : findUserById (orderSave s d) u = some user := huser
    simp [buyNow, hprod1, huser1, hfound d hdu hdp]
  refine ⟨rfl, h2 _ rfl rfl, ⟨_, ?_, ?_, rfl, ?_⟩, hgen⟩
  · rfl
  · rfl
  · rw [h2 _ rfl rfl]
    exact filter_append_last _ _ _ hno' (by simp)

/-- C4: when user `u` exists and has no cart items, `placeCartOrder` fails and
the store, orders and cart items included, is unchanged; when the two reads
succeed the failure is "Cart is empty.". -/
theorem placeCartOrder_empty_cart (flt : PlaceOrderFaults) (s : Store) (now : Time) (u : Id)
    (mobileno address : String)
    (hu : (findUserById s u).isSome = true) (hempty : cartFind s u = []) :
    (placeCartOrder flt s now u mobileno address).1.isSuccess = false ∧
      (placeCartOrder flt s now u mobileno address).2 = s ∧
      (flt.findUser = false → flt.findCart = false →
        placeCartOrder flt s now u mobileno address = (.error "Cart is empty.", s)) := by
  obtain ⟨user, huser⟩ := Option.isSome_iff_exists.mp hu
  have hnone : cartFindWithProducts s u = [] := by simp [cartFindWithProducts, hempty]
  refine ⟨?_, ?_, ?_⟩
  · by_cases h1 : flt.findUser = true <;> by_cases h2 : flt.findCart = true <;>
      simp [placeCartOrder, h1, h2, huser, hnone, placeOrderFailure, Response.isSuccess]
  · by_cases h1 : flt.findUser = true <;> by_cases h2 : flt.findCart = true <;>
      simp [placeCartOrder, h1, h2, huser, hnone, placeOrderFailure]
  · intro hfu hfc
    simp [placeCartOrder, hfu, hfc, huser, hnone]

/-- Every run of `placeCartOrder` either fails before the order is saved and
leaves the store as it was, or saves the order and then fails or succeeds in
clearing the cart. -/
theorem placeCartOrder_cases (flt : PlaceOrderFaults) (s : Store) (now : Time) (u : Id)
    (mobileno address : String) :
    ((placeCartOrder flt s now u mobileno address).1.isSuccess = false ∧
      (placeCartOrder flt s now u mobileno address).2 = s) ∨
    ∃ (user : User) (items : List (CartItem × Product)),
      findUserById s u = some user ∧
      resolveAll (cartFindWithProducts s u) = some items ∧
      cartFindWithProducts s u ≠ [] ∧
      ((flt.deleteCart = true ∧
          placeCartOrder flt s now u mobileno address =
            (placeOrderFailure,
              orderSave s (cartOrderData s now u mobileno address user
                (cartFindWithProducts s u) items))) ∨
        (flt.deleteCart = false ∧
          placeCartOrder flt s now u mobileno address =
            (.success "Order placed successfully"
                (cartOrderData s now u mobileno address user (cartFindWithProducts s u) items),
              cartDeleteMany
                (orderSave s (cartOrderData s now u mobileno address user
                  (cartFindWithProducts s u) items)) u))) := by
  unfold placeCartOrder
  by_cases h1 : flt.findUser = true
  · left; simp [h1, placeOrderFailure, Response.isSuccess]
  · cases hu : findUserById s u with
    | none => left; simp [h1, Response.isSuccess]
    | some user =>
      by_cases h2 : flt.findCart = true
      · left; simp [h1, h2, placeOrderFailure, Response.isSuccess]
      · by_cases h3 : cartFindWithProducts s u = []
        · left; simp [h1, h2, h3, Response.isSuccess]
        · cases hr : resolveAll (cartFindWithProducts s u) with
          | none => left; simp [h1, h2, h3, hr, placeOrderFailure, Response.isSuccess]
          | some items =>
            by_cases h4 : flt.saveOrder = true
            · left; simp [h1, h2, h3, h4, hr, placeOrderFailure, Response.isSuccess]
            · right
              refine ⟨user, items, rfl, rfl, h3, ?_⟩
              by_cases h5 : flt.deleteCart = true
              · left; simp [h1, h2, h3, h4, h5, hr]
              · right; simp [h1, h2, h3, h4, h5, hr]

/-- C7 (amended): every run of `placeCartOrder`, whatever store operation
fails, ends in one of three states: success with one order added and the
user's cart items removed; failure with the store unchanged; or failure of
`deleteMany` with one order added and the cart unchanged.  It never ends with
the cart changed and no order added. -/
theorem placeCartOrder_outcomes (flt : PlaceOrderFaults) (s : Store) (now : Time) (u : Id)
    (mobileno address : String) :
    (((placeCartOrder flt s now u mobileno address).1.isSuccess = true ∧
      (∃ o : Order, (placeCartOrder flt s now u mobileno address).2.orders = s.orders ++ [o]) ∧
      (placeCartOrder flt s now u mobileno address).2.cart
        = s.cart.filter (fun c => !(c.userId == u)))
    ∨ ((placeCartOrder flt s now u mobileno address).1.isSuccess = false ∧
      (placeCartOrder flt s now u mobileno address).2 = s)
    ∨ ((placeCartOrder flt s now u mobileno address).1.isSuccess = false ∧
      flt.deleteCart = true ∧
      (∃ o : Order, (placeCartOrder flt s now u mobileno address).2.orders = s.orders ++ [o]) ∧
      (placeCartOrder flt s now u mobileno address).2.cart = s.cart)) ∧
    ((placeCartOrder flt s now u mobileno address).2.orders = s.orders →
      (placeCartOrder flt s now u mobileno address).2.cart = s.cart) := by
  rcases placeCartOrder_cases flt s now u mobileno address with
    ⟨hf, hs⟩ | ⟨user, items, -, -, -, ⟨hd, heq⟩ | ⟨-, heq⟩⟩
  · exact ⟨Or.inr (Or.inl ⟨hf, hs⟩), fun _ => by rw [hs]⟩
  · rw [heq]
    refine ⟨Or.inr (Or.inr ⟨rfl, hd, ⟨_, rfl⟩, rfl⟩), fun h => rfl⟩
  · rw [heq]
    refine ⟨Or.inl ⟨rfl, ⟨_, rfl⟩, rfl⟩, fun h => ?_⟩
    exfalso
    have hlen := congrArg List.length h
    simp [cartDeleteMany, orderSave] at hlen

/-- C8: when `placeCartOrder` succeeds, the cart items afterwards are exactly
the earlier ones whose `userId` differs from `u`, in their order and unchanged,
exactly one order (for `u`, the one returned) is appended, and users and
products are unchanged. -/
theorem placeCartOrder_success_frame (flt : PlaceOrderFaults) (s : Store) (now : Time)
    (u : Id) (mobileno address : String)
    (hok : (placeCartOrder flt s now u mobileno address).1.isSuccess = true) :
    (placeCartOrder flt s now u mobileno address).2.cart
        = s.cart.filter (fun c => !(c.userId == u)) ∧
      (∃ o : Order, o.userId = u ∧
        (placeCartOrder flt s now u mobileno address).1
          = .success "Order placed successfully" o ∧
        (placeCartOrder flt s now u mobileno address).2.orders
          = s.orders ++ [{ o with _id := s.nextId }]) ∧
      (placeCartOrder flt s now u mobileno address).2.users = s.users ∧
      (placeCartOrder flt s now u mobileno address).2.products = s.products := by
  rcases placeCartOrder_cases flt s now u mobileno address with
    ⟨hf, -⟩ | ⟨user, items, -, -, -, ⟨-, heq⟩ | ⟨-, heq⟩⟩
  · rw [hf] at hok; exact absurd hok (by simp)
  · rw [heq] at hok; exact absurd hok (by simp [placeOrderFailure, Response.isSuccess])
  · rw [heq]
    exact ⟨rfl, ⟨_, rfl, rfl, rfl⟩, rfl, rfl⟩

/-! ## removeFromCart and its cleanup -/

theorem cartWF_of_filter (s s' : Store) (p : CartItem → Bool) (hwf : CartWF s)
    (hcart : s'.cart = s.cart.filter p) (hnext : s.nextId ≤ s'.nextId) : CartWF s' := by
  refine ⟨?_, ?_⟩
  · rw [hcart]
    exact List.Nodup.sublist ((List.filter_sublist s.cart).map _) hwf.1
  · intro c hc
    rw [hcart] at hc
    exact Nat.lt_of_lt_of_le (hwf.2 c (List.mem_of_mem_filter hc)) hnext

theorem cartWF_of_map (s s' : Store) (g : CartItem → CartItem) (hwf : CartWF s)
    (hg : ∀ c, (g c)._id = c._id)
    (hcart : s'.cart = s.cart.map g) (hnext : s.nextId ≤ s'.nextId) : CartWF s' := by
  have hids : (s.cart.map g).map (fun c => c._id) = s.cart.map (fun c => c._id) := by
    rw [List.map_map]
    exact List.map_congr_left (fun c _ => hg c)
  refine ⟨?_, ?_⟩
  · rw [hcart, hids]; exact hwf.1
  · intro c hc
    rw [hcart] at hc
    obtain ⟨c0, hc0, rfl⟩ := List.mem_map.mp hc
    rw [hg]
    exact Nat.lt_of_lt_of_le (hwf.2 c0 hc0) hnext

theorem two_days_back (a off : Int) : a + off - 2 * 86400000 - off = a - 172800000 := by
  omega

theorem retention_le_iff (d t : Int) : d ≤ t - 172800000 ↔ d + 172800000 ≤ t := by
  omega

theorem retention_lt_iff (now t : Int) : now - 172800000 < t ↔ now < t + 172800000 := by
  omega

theorem twoDaysAgo_fixedZone (off : Int) (now : Time) :
    twoDaysAgo (fixedZone off) now = now - 172800000 :=
  two_days_back now off

theorem cleanup_cart (tz : TimeZone) (s : Store) (t : Time) (id : Id) (hwf : CartWF s) :
    (cleanup tz s t id).cart
      = s.cart.filter (fun c => !(dueForDeletion id (twoDaysAgo tz t) c)) := by
  cases hfind : s.cart.find? (dueForDeletion id (twoDaysAgo tz t)) with
  | none =>
    have hall : ∀ c ∈ s.cart, (!(dueForDeletion id (twoDaysAgo tz t) c)) = true := by
      intro c hc
      have := List.find?_eq_none.mp hfind c hc
      simpa using this
    simp only [cleanup, hfind]
    exact (List.filter_eq_self.mpr hall).symm
  | some x =>
    have hx : x ∈ s.cart := List.mem_of_find?_eq_some hfind
    have hdue : dueForDeletion id (twoDaysAgo tz t) x = true := List.find?_some hfind
    have hxid : x._id = id := by
      simp only [dueForDeletion, Bool.and_eq_true, beq_iff_eq] at hdue
      exact hdue.1.1
    simp only [cleanup, hfind, cartDeleteOne]
    rw [deleteFirst_eq_filter (fun c : CartItem => c._id) x._id s.cart hwf.1]
    apply List.filter_congr
    intro c hc
    by_cases hcid : c._id = x._id
    · have hcx : c = x := List.inj_on_of_nodup_map hwf.1 hc hx hcid
      simp [hcx, hdue]
    · have hnd : dueForDeletion id (twoDaysAgo tz t) c = false := by
        have : c._id ≠ id := by rw [← hxid]; exact hcid
        simp [dueForDeletion, this]
      simp [hcid, hnd]

theorem cleanup_frame (tz : TimeZone) (s : Store) (t : Time) (id : Id) :
    (cleanup tz s t id).users = s.users ∧ (cleanup tz s t id).products = s.products ∧
      (cleanup tz s t id).orders = s.orders ∧ (cleanup tz s t id).nextId = s.nextId := by
  cases hfind : s.cart.find? (dueForDeletion id (twoDaysAgo tz t)) with
  | none => simp [cleanup, hfind]
  | some x => simp [cleanup, hfind, cartDeleteOne]

theorem cleanup_cartWF (tz : TimeZone) (s : Store) (t : Time) (id : Id) (hwf : CartWF s) :
    CartWF (cleanup tz s t id) :=
  cartWF_of_filter s _ _ hwf (cleanup_cart tz s t id hwf)
    (Nat.le_of_eq (cleanup_frame tz s t id).2.2.2.symm)

/-- In every zone the cleanup callback run at time `t` for the captured `_id`
removes exactly the cart items with that `_id`, status -9 and a
`softDeleteDate` at or before the threshold `twoDaysAgo tz t`; every other item
and the rest of the store are untouched. -/
theorem cleanup_at_threshold (tz : TimeZone) (s : Store) (t : Time) (id : Id)
    (hwf : CartWF s) :
    (cleanup tz s t id).cart
        = s.cart.filter (fun c =>
            !(c._id == id && c.status == -9 &&
              (match c.softDeleteDate with
               | some d => decide (d ≤ twoDaysAgo tz t)
               | none => false))) ∧
      (∀ c ∈ s.cart, c._id = id →
        (c ∈ (cleanup tz s t id).cart ↔
          ¬ (c.status = -9 ∧ ∃ d, c.softDeleteDate = some d ∧ d ≤ twoDaysAgo tz t))) ∧
      (∀ c ∈ s.cart, c._id ≠ id → c ∈ (cleanup tz s t id).cart) ∧
      (∀ c ∈ (cleanup tz s t id).cart, c ∈ s.cart) ∧
      (cleanup tz s t id).users = s.users ∧ (cleanup tz s t id).products = s.products ∧
      (cleanup tz s t id).orders = s.orders := by
  have hcart : (cleanup tz s t id).cart
      = s.cart.filter (fun c =>
          !(c._id == id && c.status == -9 &&
            (match c.softDeleteDate with
             | some d => decide (d ≤ twoDaysAgo tz t)
             | none => false))) := cleanup_cart tz s t id hwf
  refine ⟨hcart, ?_, ?_, ?_, (cleanup_frame tz s t id).1, (cleanup_frame tz s t id).2.1,
    (cleanup_frame tz s t id).2.2.1⟩
  · intro c hc hid
    rw [hcart, List.mem_filter]
    cases hd : c.softDeleteDate with
    | none => simp [hc, hd]
    | some d =>
      simp only [hc, hid, hd, true_and]
      simp
      exact Decidable.imp_iff_not_or.symm
  · intro c hc hid
    rw [hcart, List.mem_filter]
    exact ⟨hc, by simp [hid]⟩
  · intro c hc
    rw [hcart] at hc
    exact List.mem_of_mem_filter hc

/-- On a host whose UTC offset never changes, the cleanup callback run at time
`t` removes exactly the cart items with the captured `_id`, status -9 and a
`softDeleteDate` at or before `t` minus 172800000 ms. -/
theorem cleanup_fixedZone (off : Int) (s : Store) (t : Time) (id : Id) (hwf : CartWF s) :
    (cleanup (fixedZone off) s t id).cart
        = s.cart.filter (fun c =>
            !(c._id == id && c.status == -9 &&
              (match c.softDeleteDate with
               | some d => decide (d + 172800000 ≤ t)
               | none => false))) := by
  rw [(cleanup_at_threshold (fixedZone off) s t id hwf).1, twoDaysAgo_fixedZone]
  apply List.filter_congr
  intro c _
  cases hd : c.softDeleteDate with
  | none => rfl
  | some d =>
    have h : decide (d ≤ t - 172800000) = decide (d + 172800000 ≤ t) :=
      decide_eq_decide.mpr (retention_le_iff d t)
    simp only [h]

theorem find?_some_holds {α : Type} (p : α → Bool) (l : List α) (a : α)
    (h : l.find? p = some a) : p a = true :=
  List.find?_some h

theorem cartSave_cart (s : Store) (item : CartItem) (f : CartItem → CartItem) (hwf : CartWF s) :
    (cartSave s item._id f).cart = s.cart.map (fun c => if c._id = item._id then f c else c) :=
  updateFirst_eq_map (fun c : CartItem => c._id) item._id f s.cart hwf.1

/-! ## Rows that stay in the cart -/

theorem rowKept_of_cart_eq (id u p : Id) (t : Time) (s s' : Store)
    (hcart : s'.cart = s.cart) (hnext : s.nextId ≤ s'.nextId) (h : RowKept id u p t s) :
    RowKept id u p t s' := by
  obtain ⟨hwf, row, hrow, hrest⟩ := h
  refine ⟨⟨?_, ?_⟩, row, ?_, hrest⟩
  · rw [hcart]; exact hwf.1
  · intro c hc
    rw [hcart] at hc
    exact Nat.lt_of_lt_of_le (hwf.2 c hc) hnext
  · rw [hcart]; exact hrow

theorem rowKept_cartSave (id u p : Id) (t : Time) (s : Store) (item : CartItem)
    (f : CartItem → CartItem) (hid : ∀ c, (f c)._id = c._id)
    (hgood : ∀ c : CartItem,
      (c.userId = u ∧ c.productId = p ∧ c.status = -9 ∧
          ∃ d, c.softDeleteDate = some d ∧ t ≤ d) →
        ((f c).userId = u ∧ (f c).productId = p ∧ (f c).status = -9 ∧
          ∃ d, (f c).softDeleteDate = some d ∧ t ≤ d))
    (h : RowKept id u p t s) : RowKept id u p t (cartSave s item._id f) := by
  obtain ⟨hwf, row, hrow, hrid, hrest⟩ := h
  have hcart := cartSave_cart s item f hwf
  have hwf' : CartWF (cartSave s item._id f) :=
    cartWF_of_map s _ (fun c => if c._id = item._id then f c else c) hwf
      (fun c => by by_cases hc : c._id = item._id <;> simp [hc, hid]) hcart (Nat.le_refl _)
  refine ⟨hwf', ?_⟩
  by_cases hc : row._id = item._id
  · refine ⟨f row, ?_, (hid row).trans hrid, hgood row hrest⟩
    rw [hcart]
    exact List.mem_map.mpr ⟨row, hrow, by simp [hc]⟩
  · refine ⟨row, ?_, hrid, hrest⟩
    rw [hcart]
    exact List.mem_map.mpr ⟨row, hrow, by simp [hc]⟩

theorem rowKept_cartCreate (id u p : Id) (t : Time) (s : Store) (doc : CartItem)
    (h : RowKept id u p t s) : RowKept id u p t (cartCreate s doc) := by
  obtain ⟨hwf, row, hrow, hrest⟩ := h
  refine ⟨⟨?_, ?_⟩, row, ?_, hrest⟩
  · simp only [cartCreate, List.map_append, List.map_cons, List.map_nil]
    refine List.Nodup.append hwf.1 (List.nodup_singleton _) ?_
    intro x hx hx'
    rw [List.mem_singleton] at hx'
    obtain ⟨c, hc, hcx⟩ := List.mem_map.mp hx
    have := hwf.2 c hc
    rw [hcx, hx'] at this
    exact Nat.lt_irrefl _ this
  · intro c hc
    simp only [cartCreate, List.mem_append, List.mem_singleton] at hc ⊢
    rcases hc with hc | hc
    · exact Nat.lt_succ_of_lt (hwf.2 c hc)
    · rw [hc]; exact Nat.lt_succ_self _
  · simp only [cartCreate]
    exact List.mem_append_left _ hrow

theorem rowKept_filter (id u p : Id) (t : Time) (s s' : Store) (q : CartItem → Bool)
    (hcart : s'.cart = s.cart.filter q) (hnext : s.nextId ≤ s'.nextId)
    (hq : ∀ c : CartItem, c.userId = u → (∃ d, c.softDeleteDate = some d ∧ t ≤ d) →
      q c = true)
    (h : RowKept id u p t s) : RowKept id u p t s' := by
  obtain ⟨hwf, row, hrow, hrid, hru, hrp, hrs, hrd⟩ := h
  refine ⟨cartWF_of_filter s s' q hwf hcart hnext, row, ?_, hrid, hru, hrp, hrs, hrd⟩
  rw [hcart]
  exact List.mem_filter.mpr ⟨hrow, hq row hru hrd⟩

theorem addToCart_store (s : Store) (now : Time) (u p : Id) :
    (addToCart s now u p).2 = s ∨
      (∃ item : CartItem, (addToCart s now u p).2
        = cartSave s item._id (fun c => { c with quantity := item.quantity + 1 })) ∨
      (∃ doc : CartItem, (addToCart s now u p).2 = cartCreate s doc) := by
  cases hprod : findProductById s p with
  | none => left; simp [addToCart, hprod]
  | some product =>
    cases huser : findUserById s u with
    | none => left; simp [addToCart, hprod, huser]
    | some user =>
      cases hitem : cartFindOne s u p with
      | none => right; right; exact ⟨_, (addToCart_insert s now u p product user hprod huser hitem).2⟩
      | some item =>
        right; left
        exact ⟨item, (addToCart_increment s now u p product user item hprod huser hitem).2⟩

theorem removeFromCart_store (s : Store) (now : Time) (u p : Id) :
    (removeFromCart s now u p).2.1 = s ∨
      (∃ item : CartItem, (removeFromCart s now u p).2.1
        = cartSave s item._id (fun c => { c with status := -9, softDeleteDate := some now })) := by
  cases hitem : cartFindOne s u p with
  | none => left; simp [removeFromCart, hitem]
  | some item => right; exact ⟨item, by simp [removeFromCart, hitem]⟩

theorem buyNow_cart (s : Store) (now : Time) (u p : Id) (address mobileno : String) :
    (buyNow s now u p address mobileno).2.cart = s.cart ∧
      s.nextId ≤ (buyNow s now u p address mobileno).2.nextId := by
  cases hprod : findProductById s p with
  | none => simp [buyNow, hprod]
  | some product =>
    cases huser : findUserById s u with
    | none => simp [buyNow, hprod, huser]
    | some user =>
      cases horder : orderFindOne s u p with
      | none => simp [buyNow, hprod, huser, horder, orderSave]
      | some o => simp [buyNow, hprod, huser, horder]

theorem userUpsertOtp_cart (s : Store) (email : String) (otp : Nat) (e : Time) :
    (userUpsertOtp s email otp e).cart = s.cart ∧
      s.nextId ≤ (userUpsertOtp s email otp e).nextId := by
  by_cases h : (s.users.any (fun u => u.email == email)) = true
  · simp [userUpsertOtp, h]
  · simp [userUpsertOtp, h]

theorem otp_handlers_cart (s : Store) (now : Time) (otp : Nat) (email : String)
    (otp' : Option Nat) (username hashedPassword : String) :
    ((UserOtpGenerate s now otp email).2.cart = s.cart ∧
        s.nextId ≤ (UserOtpGenerate s now otp email).2.nextId) ∧
      ((UserSignup s now email otp' username hashedPassword).2.cart = s.cart ∧
        s.nextId ≤ (UserSignup s now email otp' username hashedPassword).2.nextId) ∧
      ((UserOtpForPass s now otp email).2.cart = s.cart ∧
        s.nextId ≤ (UserOtpForPass s now otp email).2.nextId) ∧
      ((UserVerifyOtp s now email otp').2.cart = s.cart ∧
        s.nextId ≤ (UserVerifyOtp s now email otp').2.nextId) ∧
      ((UpdatePassword s email hashedPassword).2.cart = s.cart ∧
        s.nextId ≤ (UpdatePassword s email hashedPassword).2.nextId) := by
  refine ⟨userUpsertOtp_cart s email otp _, ?_, ?_, ?_, ?_⟩
  · unfold UserSignup
    split
    · exact ⟨rfl, Nat.le_refl _⟩
    · split_ifs <;> exact ⟨rfl, Nat.le_refl _⟩
  · unfold UserOtpForPass
    split
    · exact ⟨rfl, Nat.le_refl _⟩
    · exact userUpsertOtp_cart s email otp _
  · unfold UserVerifyOtp
    split
    · exact ⟨rfl, Nat.le_refl _⟩
    · split_ifs <;> exact ⟨rfl, Nat.le_refl _⟩
  · unfold UpdatePassword
    split
    · exact ⟨rfl, Nat.le_refl _⟩
    · split_ifs <;> exact ⟨rfl, Nat.le_refl _⟩

theorem rowKept_apply (tz : TimeZone) (id u p : Id) (t : Time) (s : Store) (e : Event)
    (hk : e.keepsRow tz u t = true) (h : RowKept id u p t s) :
    RowKept id u p t (e.apply tz s) := by
  cases e with
  | add now u' p' =>
    rcases addToCart_store s now u' p' with heq | ⟨item, heq⟩ | ⟨doc, heq⟩
    · simp only [Event.apply, heq]; exact h
    · simp only [Event.apply, heq]
      exact rowKept_cartSave id u p t s item _ (fun _ => rfl) (fun _ hc => hc) h
    · simp only [Event.apply, heq]
      exact rowKept_cartCreate id u p t s doc h
  | remove now u' p' =>
    have hnow : t ≤ now := by simpa [Event.keepsRow] using hk
    rcases removeFromCart_store s now u' p' with heq | ⟨item, heq⟩
    · simp only [Event.apply, heq]; exact h
    · simp only [Event.apply, heq]
      exact rowKept_cartSave id u p t s item _ (fun _ => rfl)
        (fun c hc => ⟨hc.1, hc.2.1, rfl, now, rfl, hnow⟩) h
  | list u' => exact h
  | buy now u' p' address mobileno =>
    exact rowKept_of_cart_eq id u p t s _ (buyNow_cart s now u' p' address mobileno).1
      (buyNow_cart s now u' p' address mobileno).2 h
  | placeOrder flt now u' mobileno address =>
    have hne : u' ≠ u := by simpa [Event.keepsRow] using hk
    rcases placeCartOrder_cases flt s now u' mobileno address with
      ⟨-, hs⟩ | ⟨user, items, -, -, -, ⟨-, heq⟩ | ⟨-, heq⟩⟩
    · simp only [Event.apply, hs]; exact h
    · simp only [Event.apply, heq]
      exact rowKept_of_cart_eq id u p t s _ rfl (Nat.le_succ _) h
    · simp only [Event.apply, heq]
      refine rowKept_filter id u p t s _ (fun c => !(c.userId == u')) rfl (Nat.le_succ _) ?_ h
      intro c hcu _
      have : c.userId ≠ u' := by rw [hcu]; exact fun h' => hne h'.symm
      simp [this]
  | timer now id' =>
    have hth : twoDaysAgo tz now < t := by simpa [Event.keepsRow] using hk
    refine rowKept_filter id u p t s _ _ (cleanup_cart tz s now id' h.1)
      (Nat.le_of_eq (cleanup_frame tz s now id').2.2.2.symm) ?_ h
    intro c _ hd
    obtain ⟨d, hd, htd⟩ := hd
    have hnot : ¬ d ≤ twoDaysAgo tz now := not_le.mpr (lt_of_lt_of_le hth htd)
    simp [dueForDeletion, hd, hnot]
  | otpGenerate now otp email =>
    exact rowKept_of_cart_eq id u p t s _
      (otp_handlers_cart s now otp email none "" "").1.1
      (otp_handlers_cart s now otp email none "" "").1.2 h
  | signup now email otp username hashedPassword =>
    exact rowKept_of_cart_eq id u p t s _
      (otp_handlers_cart s now 0 email otp username hashedPassword).2.1.1
      (otp_handlers_cart s now 0 email otp username hashedPassword).2.1.2 h
  | otpForPass now otp email =>
    exact rowKept_of_cart_eq id u p t s _
      (otp_handlers_cart s now otp email none "" "").2.2.1.1
      (otp_handlers_cart s now otp email none "" "").2.2.1.2 h
  | verifyOtp now email otp =>
    exact rowKept_of_cart_eq id u p t s _
      (otp_handlers_cart s now 0 email otp "" "").2.2.2.1.1
      (otp_handlers_cart s now 0 email otp "" "").2.2.2.1.2 h
  | newPassword email hashedPassword =>
    exact rowKept_of_cart_eq id u p t s _
      (otp_handlers_cart s 0 0 email none "" hashedPassword).2.2.2.2.1
      (otp_handlers_cart s 0 0 email none "" hashedPassword).2.2.2.2.2 h

theorem rowKept_runEvents (tz : TimeZone) (id u p : Id) (t : Time) (events : List Event) :
    ∀ s : Store, (∀ e ∈ events, e.keepsRow tz u t = true) → RowKept id u p t s →
      RowKept id u p t (runEvents tz s events) := by
  induction events with
  | nil => intro s _ h; exact h
  | cons e rest ih =>
    intro s hk h
    exact ih (e.apply tz s) (fun e' he' => hk e' (List.mem_cons_of_mem e he'))
      (rowKept_apply tz id u p t s e (hk e (List.mem_cons_self e rest)) h)

/-- On a host whose UTC offset never changes, a cleanup leaves a row removed at
time `t` in place exactly when it runs before `t` plus 172800000 ms. -/
theorem keepsRow_timer_fixedZone (off : Int) (u id : Id) (t now : Time) :
    (Event.timer now id).keepsRow (fixedZone off) u t = decide (now < t + 172800000) := by
  simp only [Event.keepsRow, twoDaysAgo_fixedZone]
  exact decide_eq_decide.mpr (retention_lt_iff now t)

/-- C9 (amended): when a cart item exists for `(u, p)`, `removeFromCart` at
time `t` sets the status of that item to -9 and its `softDeleteDate` to `t`,
changes nothing else in the store, schedules the cleanup 172800000 ms later,
and the item is returned by `getCartItems` right afterwards.  The row, known
by its `_id`, is still returned with status -9 after any later sequence of
requests and callbacks that holds no cart order of `u`, no cleanup whose
threshold has reached `t`, and no removal stamped before `t`.  When no cart
item exists for `(u, p)` it returns "Cart item not found." and changes
nothing. -/
theorem removeFromCart_soft_deletes (s : Store) (t : Time) (u p : Id) (hwf : CartWF s) :
    (∀ item : CartItem, cartFindOne s u p = some item →
      (removeFromCart s t u p).1 =
          .success
            "Cart item marked for deletion (soft delete). It will be permanently removed after 2 days."
            { item with status := -9, softDeleteDate := some t } ∧
        (removeFromCart s t u p).2.1.cart =
          s.cart.map (fun c =>
            if c._id = item._id then { c with status := -9, softDeleteDate := some t } else c) ∧
        (removeFromCart s t u p).2.1.users = s.users ∧
        (removeFromCart s t u p).2.1.products = s.products ∧
        (removeFromCart s t u p).2.1.orders = s.orders ∧
        (removeFromCart s t u p).2.2 = some { delay := 172800000, cartItemId := item._id } ∧
        (∃ l, (getCartItems (removeFromCart s t u p).2.1 u).1
            = .success "Products found successfully." l ∧
          { item with status := -9, softDeleteDate := some t } ∈ l) ∧
        ∀ (tz : TimeZone) (events : List Event),
          (∀ e ∈ events, e.keepsRow tz u t = true) →
          ∃ l, (getCartItems (runEvents tz (removeFromCart s t u p).2.1 events) u).1
              = .success "Products found successfully." l ∧
            ∃ row ∈ l, row._id = item._id ∧ row.productId = p ∧ row.status = -9) ∧
    (cartFindOne s u p = none →
      removeFromCart s t u p = (.error "Cart item not found.", s, none)) := by
  constructor
  · intro item hitem
    have hmem : item ∈ s.cart := List.mem_of_find?_eq_some hitem
    have hfind : s.cart.find? (fun c => c.userId == u && c.productId == p) = some item := hitem
    have hmatch := find?_some_holds (fun c : CartItem => c.userId == u && c.productId == p)
      s.cart item hfind
    have hu : item.userId = u := by
      simp only [Bool.and_eq_true, beq_iff_eq] at hmatch; exact hmatch.1
    have hp : item.productId = p := by
      simp only [Bool.and_eq_true, beq_iff_eq] at hmatch; exact hmatch.2
    have heq : removeFromCart s t u p =
        (.success
          "Cart item marked for deletion (soft delete). It will be permanently removed after 2 days."
          { item with status := -9, softDeleteDate := some t },
         cartSave s item._id (fun c => { c with status := -9, softDeleteDate := some t }),
         some { delay := retentionMs, cartItemId := item._id }) := by
      simp [removeFromCart, hitem]
    have hcart := cartSave_cart s item
      (fun c => { c with status := -9, softDeleteDate := some t }) hwf
    have hwf' : CartWF (cartSave s item._id
        (fun c => { c with status := -9, softDeleteDate := some t })) :=
      cartWF_of_map s _ (fun c =>
          if c._id = item._id then { c with status := -9, softDeleteDate := some t } else c)
        hwf (fun c => by by_cases h : c._id = item._id <;> simp [h]) hcart (Nat.le_refl _)
    have hin : ({ item with status := -9, softDeleteDate := some t } : CartItem) ∈
        (cartSave s item._id (fun c => { c with status := -9, softDeleteDate := some t })).cart := by
      rw [hcart]
      exact List.mem_map.mpr ⟨item, hmem, by simp⟩
    rw [heq]
    refine ⟨rfl, hcart, rfl, rfl, rfl, rfl, ⟨_, rfl, ?_⟩, ?_⟩
    · exact List.mem_filter.mpr ⟨hin, by simp [hu]⟩
    · intro tz events hevents
      have hkept : RowKept item._id u p t (cartSave s item._id
          (fun c => { c with status := -9, softDeleteDate := some t })) :=
        ⟨hwf', _, hin, rfl, hu, hp, rfl, t, rfl, le_refl t⟩
      obtain ⟨-, row, hrow, hrid, hru, hrp, hrs, -⟩ :=
        rowKept_runEvents tz item._id u p t events _ hevents hkept
      exact ⟨_, rfl, row, List.mem_filter.mpr ⟨hrow, by simp [hru]⟩, hrid, hrp, hrs⟩
  · intro hnone
    simp [removeFromCart, hnone]

/-- C6 (amended): when the cart item for `(u, p)` is soft-deleted (status -9,
`softDeleteDate = d`), `addToCart` adds no row and only raises the quantity of
that item by one; its status stays -9 and its `softDeleteDate` stays `d`, so a
cleanup callback for it that runs with `d` at or before its threshold deletes
the row, in every time zone. -/
theorem addToCart_soft_deleted_stays (s : Store) (now : Time) (u p : Id) (item : CartItem)
    (d : Time) (hwf : CartWF s)
    (hp : (findProductById s p).isSome = true) (hu : (findUserById s u).isSome = true)
    (hitem : cartFindOne s u p = some item)
    (hst : item.status = -9) (hd : item.softDeleteDate = some d) :
    (addToCart s now u p).2.cart =
        s.cart.map (fun c =>
          if c._id = item._id then { c with quantity := item.quantity + 1 } else c) ∧
      cartFindOne (addToCart s now u p).2 u p
        = some { item with quantity := item.quantity + 1, status := -9,
                           softDeleteDate := some d } ∧
      ∀ (tz : TimeZone) (t : Time), d ≤ twoDaysAgo tz t →
        (cleanup tz (addToCart s now u p).2 t item._id).cart
          = s.cart.filter (fun c => !(c._id == item._id)) := by
  obtain ⟨product, hprod⟩ := Option.isSome_iff_exists.mp hp
  obtain ⟨user, huser⟩ := Option.isSome_iff_exists.mp hu
  obtain ⟨-, hs1⟩ := addToCart_increment s now u p product user item hprod huser hitem
  have hmem : item ∈ s.cart := List.mem_of_find?_eq_some hitem
  have hcart := cartSave_cart s item (fun c => { c with quantity := item.quantity + 1 }) hwf
  have hwf' : CartWF (cartSave s item._id (fun c => { c with quantity := item.quantity + 1 })) :=
    cartWF_of_map s _ (fun c =>
        if c._id = item._id then { c with quantity := item.quantity + 1 } else c)
      hwf (fun c => by by_cases h : c._id = item._id <;> simp [h]) hcart (Nat.le_refl _)
  have hsame : ∀ c ∈ s.cart, c._id = item._id → c = item := fun c hc h =>
    List.inj_on_of_nodup_map hwf.1 hc hmem h
  rw [hs1]
  refine ⟨hcart, ?_, ?_⟩
  · simp only [cartFindOne]
    rw [hcart, List.find?_map]
    have hfun : ((fun c : CartItem => c.userId == u && c.productId == p) ∘
        (fun c : CartItem =>
          if c._id = item._id then { c with quantity := item.quantity + 1 } else c))
        = (fun c : CartItem => c.userId == u && c.productId == p) := by
      funext c
      by_cases h : c._id = item._id <;> simp [h]
    rw [hfun]
    have hitem' : s.cart.find? (fun c => c.userId == u && c.productId == p) = some item := hitem
    rw [hitem']
    simp [← hst, ← hd]
  · intro tz t ht
    rw [(cleanup_at_threshold tz _ t item._id hwf').1, hcart, List.filter_map]
    have hfilt : s.cart.filter
        ((fun c : CartItem =>
            !(c._id == item._id && c.status == -9 &&
              (match c.softDeleteDate with
               | some d => decide (d ≤ twoDaysAgo tz t)
               | none => false))) ∘
          (fun c : CartItem =>
            if c._id = item._id then { c with quantity := item.quantity + 1 } else c))
        = s.cart.filter (fun c => !(c._id == item._id)) := by
      apply List.filter_congr
      intro c hc
      by_cases h : c._id = item._id
      · have hc' : c = item := hsame c hc h
        subst hc'
        simp [hst, hd, ht]
      · have hb : (c._id == item._id) = false := beq_false_of_ne h
        simp [h, hb]
    rw [hfilt]
    have hid : ∀ c ∈ s.cart.filter (fun c => !(c._id == item._id)),
        (if c._id = item._id then { c with quantity := item.quantity + 1 } else c) = c := by
      intro c hc
      have := (List.mem_filter.mp hc).2
      have hne : c._id ≠ item._id := by simpa using this
      simp [hne]
    conv_rhs => rw [← List.map_id (s.cart.filter (fun c => !(c._id == item._id)))]
    exact List.map_congr_left hid


/-! ## OTP fields -/

theorem userSave_findOne (s : Store) (email : String) (user : User) (f : User → User)
    (hwf : UsersWF s) (hfind : userFindOne s email = some user)
    (hemail : ∀ x, (f x).email = x.email) :
    userFindOne (userSave s user._id f) email = some (f user) := by
  have husers : (userSave s user._id f).users
      = s.users.map (fun x => if x._id = user._id then f x else x) :=
    updateFirst_eq_map (fun x : User => x._id) user._id f s.users hwf
  have hfun : ((fun x : User => x.email == email) ∘
      (fun x : User => if x._id = user._id then f x else x))
      = (fun x : User => x.email == email) := by
    funext x
    by_cases h : x._id = user._id <;> simp [h, hemail]
  have hfind' : s.users.find? (fun x => x.email == email) = some user := hfind
  simp only [userFindOne]
  rw [husers, List.find?_map, hfun, hfind']
  simp

/-- C10 (amended): after a successful `UserSignup` and after a successful
`UserVerifyOtp` the stored user has neither `otp` nor `otpExpiration`; a
successful `UpdatePassword` leaves both fields as they were. -/
theorem otp_fields_after_success (s : Store) (now : Time) (email : String) (otp : Option Nat)
    (username hashedPassword : String) (hwf : UsersWF s) :
    ((UserSignup s now email otp username hashedPassword).1.isSuccess = true →
      ∃ user, userFindOne (UserSignup s now email otp username hashedPassword).2 email
          = some user ∧ user.otp = none ∧ user.otpExpiration = none) ∧
    ((UserVerifyOtp s now email otp).1.isSuccess = true →
      ∃ user, userFindOne (UserVerifyOtp s now email otp).2 email = some user ∧
        user.otp = none ∧ user.otpExpiration = none) ∧
    ((UpdatePassword s email hashedPassword).1.isSuccess = true →
      ∃ before after, userFindOne s email = some before ∧
        userFindOne (UpdatePassword s email hashedPassword).2 email = some after ∧
        after.otp = before.otp ∧ after.otpExpiration = before.otpExpiration) := by
  refine ⟨?_, ?_, ?_⟩
  · intro hok
    cases hfind : userFindOne s email with
    | none => simp [UserSignup, hfind, Response.isSuccess] at hok
    | some user =>
      by_cases h1 : (user.otp != otp) = true
      · simp [UserSignup, hfind, h1, Response.isSuccess] at hok
      · by_cases h2 : otpExpired user now = true
        · simp [UserSignup, hfind, h1, h2, Response.isSuccess] at hok
        · simp only [UserSignup, hfind, h1, h2]
          exact ⟨_, userSave_findOne s email user _ hwf hfind (fun _ => rfl), rfl, rfl⟩
  · intro hok
    cases hfind : userFindOne s email with
    | none => simp [UserVerifyOtp, hfind, Response.isSuccess] at hok
    | some user =>
      by_cases h1 : (user.otp != otp) = true
      · simp [UserVerifyOtp, hfind, h1, Response.isSuccess] at hok
      · by_cases h2 : otpExpired user now = true
        · simp [UserVerifyOtp, hfind, h1, h2, Response.isSuccess] at hok
        · simp only [UserVerifyOtp, hfind, h1, h2]
          exact ⟨_, userSave_findOne s email user _ hwf hfind (fun _ => rfl), rfl, rfl⟩
  · intro hok
    cases hfind : userFindOne s email with
    | none => simp [UpdatePassword, hfind, Response.isSuccess] at hok
    | some user =>
      by_cases h1 : (!user.isOtpVerified) = true
      · simp [UpdatePassword, hfind, h1, Response.isSuccess] at hok
      · simp only [UpdatePassword, hfind, h1]
        exact ⟨user, _, rfl, userSave_findOne s email user _ hwf hfind (fun _ => rfl), rfl, rfl⟩

/-! ## categoryQuantities -/

theorem jsObject_set_cons (a : String) (b : JsVal) (rest : JsObject) (k : String) (v : JsVal)
    (hk : k ≠ "__proto__") :
    JsObject.set ((a, b) :: rest) k v
      = if a = k then (a, v) :: rest else (a, b) :: JsObject.set rest k v := by
  have hk' : (k == "__proto__") = false := beq_false_of_ne hk
  by_cases ha : a = k
  · simp [JsObject.set, hk', ha, updateFirst]
  · have ha' : (a == k) = false := beq_false_of_ne ha
    by_cases hany : (rest.any (fun kv => kv.1 == k)) = true
    · simp only [JsObject.set, hk', List.any_cons, ha', hany, updateFirst, ha]
      simp
    · have hany' : (rest.any (fun kv => kv.1 == k)) = false := Bool.eq_false_iff.mpr hany
      simp only [JsObject.set, hk', List.any_cons, ha', hany', ha]
      simp

theorem jsObject_getOwn_set (o : JsObject) (k c : String) (v : JsVal) (hk : k ≠ "__proto__") :
    (JsObject.set o k v).getOwn c = if c = k then some v else JsObject.getOwn o c := by
  induction o with
  | nil =>
    have hk' : (k == "__proto__") = false := beq_false_of_ne hk
    by_cases hc : c = k
    · simp [JsObject.set, JsObject.getOwn, hk', hc]
    · have hc' : ¬ k = c := fun h => hc h.symm
      simp [JsObject.set, JsObject.getOwn, hk', hc, hc']
  | cons kv rest ih =>
    obtain ⟨a, b⟩ := kv
    rw [jsObject_set_cons a b rest k v hk]
    by_cases ha : a = k
    · by_cases hc : c = k
      · simp [JsObject.getOwn, ha, hc]
      · have hc' : ¬ k = c := fun h => hc h.symm
        simp [JsObject.getOwn, ha, hc, hc']
    · simp only [ha, if_false]
      by_cases hac : a = c
      · have hck : ¬ c = k := fun h => ha (hac.trans h)
        simp [JsObject.getOwn, hac, hck]
      · have hstep : ∀ o' : JsObject,
            JsObject.getOwn ((a, b) :: o') c = JsObject.getOwn o' c := by
          intro o'
          simp [JsObject.getOwn, hac]
        rw [hstep, hstep, ih]

theorem tallyCategory_skip (o : JsObject) (item : CartItem × Product)
    (h : categoryMissing item.2.category = true) : tallyCategory o item = o := by
  unfold tallyCategory
  cases hcat : item.2.category with
  | none => rfl
  | some k =>
    have hk : (k == "") = true := by simpa [categoryMissing, hcat] using h
    simp [hk]

theorem tallyCategory_getOwn (o : JsObject) (m : String → Option Nat)
    (hP : ∀ c, JsObject.getOwn o c = (m c).map JsVal.num)
    (item : CartItem × Product) (k : String) (hcat : item.2.category = some k)
    (hk : k ≠ "") (hproto : objectPrototype k = none) (c : String) :
    (tallyCategory o item).getOwn c
      = if c = k then some (.num ((m k).getD 0 + item.1.quantity)) else JsObject.getOwn o c := by
  have hk' : (k == "") = false := beq_false_of_ne hk
  have hnp : k ≠ "__proto__" := by
    intro h
    rw [h] at hproto
    simp [objectPrototype] at hproto
  have hget : ∀ o' : JsObject, JsObject.get o' k = JsObject.getOwn o' k := by
    intro o'
    unfold JsObject.get
    cases JsObject.getOwn o' k with
    | none => exact hproto
    | some v => rfl
  have hzero : ((JsObject.set o k (.num 0)).set k
        (jsPlus ((JsObject.set o k (.num 0)).get k) item.1.quantity)).getOwn c
      = if c = k then some (.num (0 + item.1.quantity)) else JsObject.getOwn o c := by
    rw [hget, jsObject_getOwn_set _ k k _ hnp, jsObject_getOwn_set _ k c _ hnp,
      jsObject_getOwn_set _ k c _ hnp]
    by_cases hc : c = k <;> simp [hc, jsPlus]
  unfold tallyCategory
  simp only [hcat, hk', Bool.false_eq_true, if_false]
  rw [hget o]
  cases hm : m k with
  | none =>
    have hown : JsObject.getOwn o k = none := by rw [hP k, hm]; rfl
    simp only [hown, Option.map_none', Option.getD_none, Bool.not_false, if_true]
    rw [hzero]
  | some n =>
    have hown : JsObject.getOwn o k = some (.num n) := by rw [hP k, hm]; rfl
    by_cases hn : n = 0
    · subst hn
      simp only [hown, Option.map_some', Option.getD_some, JsVal.truthy, bne_self_eq_false,
        Bool.not_false, if_true]
      rw [hzero]
    · have hne : (n != 0) = true := by simpa using hn
      simp only [hown, Option.map_some', Option.getD_some, JsVal.truthy, hne, Bool.not_true,
        Bool.false_eq_true, if_false]
      rw [hget o, hown, jsObject_getOwn_set _ k c _ hnp]
      simp [jsPlus]

theorem foldl_tallyCategory_getOwn (items : List (CartItem × Product)) :
    ∀ (o : JsObject) (m : String → Option Nat),
      (∀ c, JsObject.getOwn o c = (m c).map JsVal.num) →
      (∀ item ∈ items, ∀ k, item.2.category = some k → objectPrototype k = none) →
      ∀ c, JsObject.getOwn (items.foldl tallyCategory o) c
        = if (m c).isSome || items.any (countsFor c) then
            some (.num ((m c).getD 0 + specCategoryQuantity items c))
          else none := by
  induction items with
  | nil =>
    intro o m hP _ c
    rw [List.foldl_nil, hP c]
    cases m c <;> simp [specCategoryQuantity]
  | cons item rest ih =>
    intro o m hP hplain c
    have hrest : ∀ it ∈ rest, ∀ k, it.2.category = some k → objectPrototype k = none :=
      fun it hit => hplain it (List.mem_cons_of_mem item hit)
    rw [List.foldl_cons]
    by_cases hmiss : categoryMissing item.2.category = true
    · have hcount : countsFor c item = false := by
        cases hcat : item.2.category with
        | none => simp [countsFor, hcat]
        | some k =>
          have hk : k = "" := by simpa [categoryMissing, hcat] using hmiss
          by_cases hc : c = ""
          · simp [countsFor, hc]
          · have hne : ¬ k = c := fun h => hc (h ▸ hk)
            simp [countsFor, hcat, hne]
      rw [tallyCategory_skip o item hmiss, ih o m hP hrest c, List.any_cons, hcount,
        Bool.false_or]
      simp [specCategoryQuantity, List.filter_cons, hcount]
    · cases hcat : item.2.category with
      | none => simp [categoryMissing, hcat] at hmiss
      | some k =>
        have hk : k ≠ "" := by simpa [categoryMissing, hcat] using hmiss
        have hproto : objectPrototype k = none :=
          hplain item (List.mem_cons_self item rest) k hcat
        have hP' : ∀ x, JsObject.getOwn (tallyCategory o item) x
            = ((fun x => if x = k then some ((m k).getD 0 + item.1.quantity) else m x) x).map
                JsVal.num := by
          intro x
          rw [tallyCategory_getOwn o m hP item k hcat hk hproto x]
          by_cases hx : x = k
          · simp [hx]
          · simp [hx, hP x]
        rw [ih (tallyCategory o item) _ hP' hrest c, List.any_cons]
        by_cases hc : c = k
        · subst hc
          have hcount : countsFor c item = true := by simp [countsFor, hcat, hk]
          rw [hcount]
          simp [specCategoryQuantity, List.filter_cons, hcount, Nat.add_assoc]
        · have hne : ¬ k = c := fun h => hc h.symm
          have hcount : countsFor c item = false := by simp [countsFor, hcat, hne]
          rw [hcount, Bool.false_or]
          simp only [if_neg hc]
          simp [specCategoryQuantity, List.filter_cons, hcount]

theorem resolveAll_eq_some (l : List (CartItem × Option Product)) :
    ∀ items, resolveAll l = some items → l = items.map (fun it => (it.1, some it.2)) := by
  induction l with
  | nil =>
    intro items h
    simp only [resolveAll, Option.some.injEq] at h
    rw [← h]; rfl
  | cons x rest ih =>
    obtain ⟨c, op⟩ := x
    intro items h
    cases op with
    | none => simp [resolveAll] at h
    | some p =>
      cases hr : resolveAll rest with
      | none => simp [resolveAll, hr] at h
      | some r =>
        simp only [resolveAll, hr, Option.map_some', Option.some.injEq] at h
        rw [← h, List.map_cons, ← ih r hr]

theorem foldl_quantity_eq_sum (l : List (CartItem × Option Product)) :
    ∀ init : Nat, l.foldl (fun sum item => sum + item.1.quantity) init
      = init + (l.map (fun item => item.1.quantity)).sum := by
  induction l with
  | nil => intro init; simp
  | cons x rest ih =>
    intro init
    rw [List.foldl_cons, ih, List.map_cons, List.sum_cons, Nat.add_assoc]

/-- Whenever no category of the user's cart names a property inherited from
`Object.prototype`, a successful `placeCartOrder` returns an order whose
`totalQuantity` is the sum of the quantities of all of the user's cart items
and whose `categoryQuantities` holds, for each category `c`, the sum of the
quantities of exactly the items of category `c`, and no entry for a category
without items; items without a category add to no entry. -/
theorem placeCartOrder_plain_categories (flt : PlaceOrderFaults) (s : Store) (now : Time)
    (u : Id) (mobileno address : String)
    (hplain : ∀ x ∈ cartFindWithProducts s u, ∀ p k, x.2 = some p → p.category = some k →
      objectPrototype k = none)
    (hok : (placeCartOrder flt s now u mobileno address).1.isSuccess = true) :
    ∃ (o : Order) (cq : JsObject) (items : List (CartItem × Product)),
      (placeCartOrder flt s now u mobileno address).1
          = .success "Order placed successfully" o ∧
        cartFindWithProducts s u = items.map (fun it => (it.1, some it.2)) ∧
        o.totalQuantity = some ((cartFind s u).map (fun c => c.quantity)).sum ∧
        o.categoryQuantities = some cq ∧
        ∀ c, JsObject.getOwn cq c
          = if items.any (countsFor c) then some (.num (specCategoryQuantity items c))
            else none := by
  rcases placeCartOrder_cases flt s now u mobileno address with
    ⟨hf, -⟩ | ⟨user, items, -, hres, -, ⟨-, heq⟩ | ⟨-, heq⟩⟩
  · rw [hf] at hok; exact absurd hok (by simp)
  · rw [heq] at hok; exact absurd hok (by simp [placeOrderFailure, Response.isSuccess])
  · have hl := resolveAll_eq_some _ items hres
    have hitems : ∀ item ∈ items, ∀ k, item.2.category = some k → objectPrototype k = none := by
      intro item hitem k hk
      refine hplain (item.1, some item.2) ?_ item.2 k rfl hk
      rw [hl]
      exact List.mem_map.mpr ⟨item, hitem, rfl⟩
    refine ⟨_, items.foldl tallyCategory [], items, by rw [heq], hl, ?_, rfl, ?_⟩
    · simp only [cartOrderData]
      rw [foldl_quantity_eq_sum, Nat.zero_add]
      simp [cartFindWithProducts, List.map_map, Function.comp_def]
    · intro c
      have h := foldl_tallyCategory_getOwn items [] (fun _ => none) (fun _ => rfl) hitems c
      simpa using h

/-- The example of the specification: two shirts (clothing) and three mugs
(kitchen) give `totalQuantity` 5 and the quantities 2 and 3 per category, and
Ann's cart is cleared while Ben's row stays. -/
theorem placeCartOrder_two_categories :
    (placeCartOrder noFaults cartStore 5000 1 "555" "1 Main St").2.orders.map
        (fun o => (o.totalQuantity, o.categoryQuantities))
      = [(some 5, some [("clothing", .num 2), ("kitchen", .num 3)])] ∧
    (placeCartOrder noFaults cartStore 5000 1 "555" "1 Main St").2.cart
      = [sampleRow 102 ben shirt 1] := by
  decide


/-! ## Evaluations on the sample data -/

/-- Re-adding a soft-deleted item raises its quantity but leaves status -9 and
the `softDeleteDate`, and a cleanup run two days after the removal on a host
in UTC then deletes the row. -/
theorem addToCart_soft_deleted_counterexample :
    (cartFindOne removedStore 1 10).map (fun c => (c.status, c.softDeleteDate))
        = some (-9, some 1000) ∧
      (addToCart removedStore 2000 1 10).1.isSuccess = true ∧
      ((addToCart removedStore 2000 1 10).2.cart.filter
          (fun c => c.userId == 1 && c.productId == 10)).map
          (fun c => (c.quantity, c.status, c.softDeleteDate))
        = [(3, -9, some 1000)] ∧
      (cleanup utcZone (addToCart removedStore 2000 1 10).2 (1000 + 172800000) 100).cart.filter
          (fun c => c.userId == 1 && c.productId == 10) = [] := by
  decide

/-- When `deleteMany` fails after the order was saved, the response is a
failure although the order is recorded and the cart is still filled. -/
theorem placeCartOrder_partial_failure_counterexample :
    (placeCartOrder { noFaults with deleteCart := true } cartStore 5000 1 "555" "1 Main St").1
        = .error "An error occurred while placing the order." ∧
      ((placeCartOrder { noFaults with deleteCart := true } cartStore 5000 1 "555"
          "1 Main St").2.orders.map (fun o => (o.userId, o.totalQuantity))) = [(1, some 5)] ∧
      cartStore.orders = [] ∧
      (placeCartOrder { noFaults with deleteCart := true } cartStore 5000 1 "555"
          "1 Main St").2.cart = cartStore.cart ∧
      cartStore.cart.filter (fun c => c.userId == 1) ≠ [] := by
  decide

/-- Starting from the empty store: signup, a verified password-reset OTP, one
more OTP request, then a successful `UpdatePassword` that leaves the last OTP
and its expiry on the user. -/
theorem updatePassword_keeps_otp_counterexample :
    (UserOtpGenerate emptyStore 0 1111 "ann@shop.test").1.isSuccess = true ∧
      (UserSignup (UserOtpGenerate emptyStore 0 1111 "ann@shop.test").2 1000 "ann@shop.test"
          (some 1111) "ann" "h1").1.isSuccess = true ∧
      (UpdatePassword otpStore "ann@shop.test" "h2").1.isSuccess = true ∧
      (userFindOne (UpdatePassword otpStore "ann@shop.test" "h2").2 "ann@shop.test").map
          (fun u => (u.password, u.otp, u.otpExpiration))
        = some (some "h2", some 3333, some 604000) := by
  decide

/-- C2: for a cart holding two items of category `constructor` the order is
placed successfully with `totalQuantity` 2, but `categoryQuantities` maps
`constructor` to a string built from the inherited function, not to 2. -/
theorem placeCartOrder_inherited_category :
    (placeCartOrder noFaults kitStore 5000 1 "555" "1 Main St").1.isSuccess = true ∧
      (placeCartOrder noFaults kitStore 5000 1 "555" "1 Main St").2.orders.map
          (fun o => (o.totalQuantity, o.categoryQuantities))
        = [(some 2,
            some [("constructor", .str "function Object() \x7b [native code] \x7d2")])] := by
  decide

/-- C5: on a host in `America/New_York`, Ann's row is soft-deleted at
2026-10-31T16:00Z and the callback runs 172800000 ms later, after the clocks
went back: its threshold lies 49 hours back, so the row, soft-deleted 48 hours
earlier and still at status -9, is kept, while the same run on a host in UTC
deletes it.  After the clocks went forward the threshold lies 47 hours back,
and a callback that runs 47.5 hours after a removal at 2026-03-07T17:00Z
deletes the row. -/
theorem cleanup_after_clock_change :
    (removeFromCart cartStore 1793462400000 1 10).2.2
        = some { delay := 172800000, cartItemId := 100 } ∧
      twoDaysAgo newYork2026 (1793462400000 + 172800000) = 1793462400000 - 3600000 ∧
      (cleanup newYork2026 (removeFromCart cartStore 1793462400000 1 10).2.1
          (1793462400000 + 172800000) 100).cart.map
          (fun c => (c._id, c.status, c.softDeleteDate))
        = [(100, -9, some 1793462400000), (101, 1, none), (102, 1, none)] ∧
      (cleanup utcZone (removeFromCart cartStore 1793462400000 1 10).2.1
          (1793462400000 + 172800000) 100).cart.map (fun c => c._id) = [101, 102] ∧
      twoDaysAgo newYork2026 (1772902800000 + 171000000) = 1772902800000 + 1800000 ∧
      (cleanup newYork2026 (removeFromCart cartStore 1772902800000 1 10).2.1
          (1772902800000 + 171000000) 100).cart.map (fun c => c._id) = [101, 102] := by
  decide

/-- Ann removes her shirts at time 1000 and places a cart order at time 2000:
the order succeeds and `getCartItems` returns no row, long before the two days
have passed. -/
theorem removeFromCart_then_order_counterexample :
    (removeFromCart cartStore 1000 1 10).1.isSuccess = true ∧
      (placeCartOrder noFaults (removeFromCart cartStore 1000 1 10).2.1 2000 1 "555"
          "1 Main St").1.isSuccess = true ∧
      (getCartItems
          (placeCartOrder noFaults (removeFromCart cartStore 1000 1 10).2.1 2000 1 "555"
            "1 Main St").2 1).1
        = .success "Products found successfully." [] := by
  decide

/-! ## Instances of the general theorems -/

/-- An instance of `addToCart_twice_one_row` on the sample store. -/
theorem addToCart_twice_one_row_witness :
    CartWF sampleStore ∧ cartFindOne sampleStore 1 10 = none ∧
      ∃ row : CartItem, row.quantity = 2 ∧
        (addToCart (addToCart sampleStore 5 1 10).2 6 1 10).2.cart.filter
          (fun c => c.userId == 1 && c.productId == 10) = [row] :=
  ⟨by decide, by decide,
    (addToCart_twice_one_row sampleStore 5 6 1 10 (by decide) (by decide) (by decide)
      (by decide)).elim
      (fun row h => ⟨{ row with quantity := 2 }, rfl, h.2.2.2.2.2.2.2.2⟩)⟩

/-- An instance of `buyNow_twice_conflict` on the sample store. -/
theorem buyNow_twice_conflict_witness :
    orderFindOne sampleStore 1 10 = none ∧
      buyNow (buyNow sampleStore 5 1 10 "1 Main St" "555").2 6 1 10 "1 Main St" "555"
        = (.error "Order for this product already exists.",
            (buyNow sampleStore 5 1 10 "1 Main St" "555").2) :=
  ⟨by decide,
    (buyNow_twice_conflict sampleStore 5 6 1 10 "1 Main St" "555" "1 Main St" "555"
      (by decide) (by decide) (by decide)).2.1⟩

/-- An instance of `placeCartOrder_empty_cart` on the sample store. -/
theorem placeCartOrder_empty_cart_witness :
    cartFind sampleStore 1 = [] ∧
      placeCartOrder noFaults sampleStore 5 1 "555" "1 Main St"
        = (.error "Cart is empty.", sampleStore) :=
  ⟨by decide,
    (placeCartOrder_empty_cart noFaults sampleStore 5 1 "555" "1 Main St" (by decide)
      (by decide)).2.2 rfl rfl⟩

/-- An instance of `placeCartOrder_success_frame`: Ann checks out, Ben's row stays. -/
theorem placeCartOrder_success_frame_witness :
    (placeCartOrder noFaults cartStore 5 1 "555" "1 Main St").1.isSuccess = true ∧
      (placeCartOrder noFaults cartStore 5 1 "555" "1 Main St").2.cart
        = cartStore.cart.filter (fun c => !(c.userId == 1)) :=
  ⟨by decide,
    (placeCartOrder_success_frame noFaults cartStore 5 1 "555" "1 Main St" (by decide)).1⟩

/-- An instance of `removeFromCart_soft_deletes`: Ann removes her shirts, then
re-adds them, an early cleanup runs, Ben checks out and Ann removes them again;
the row is still listed. -/
theorem removeFromCart_soft_deletes_witness :
    CartWF cartStore ∧ cartFindOne cartStore 1 10 = some (sampleRow 100 ann shirt 2) ∧
      ∃ l, (getCartItems (runEvents utcZone (removeFromCart cartStore 1000 1 10).2.1
              [.add 2000 1 10, .timer (1000 + 172800000 - 1) 100,
               .placeOrder noFaults 3000 2 "556" "2 Side St", .remove 4000 1 10]) 1).1
          = .success "Products found successfully." l ∧
        ∃ row ∈ l, row._id = 100 ∧ row.productId = 10 ∧ row.status = -9 :=
  ⟨by decide, by decide,
    ((removeFromCart_soft_deletes cartStore 1000 1 10 (by decide)).1
      (sampleRow 100 ann shirt 2) (by decide)).2.2.2.2.2.2.2 utcZone
      [.add 2000 1 10, .timer (1000 + 172800000 - 1) 100,
       .placeOrder noFaults 3000 2 "556" "2 Side St", .remove 4000 1 10] (by decide)⟩

/-- An instance of `addToCart_soft_deleted_stays`: Ann re-adds the removed shirts. -/
theorem addToCart_soft_deleted_stays_witness :
    CartWF removedStore ∧
      cartFindOne (addToCart removedStore 2000 1 10).2 1 10
        = some { sampleRow 100 ann shirt 2 with
                 quantity := 3, status := -9, softDeleteDate := some 1000 } :=
  ⟨by decide,
    (addToCart_soft_deleted_stays removedStore 2000 1 10
      { sampleRow 100 ann shirt 2 with status := -9, softDeleteDate := some 1000 } 1000
      (by decide) (by decide) (by decide) (by decide) rfl rfl).2.1⟩

/-- An instance of `otp_fields_after_success`: the signup that follows the first OTP. -/
theorem otp_fields_after_success_witness :
    UsersWF (UserOtpGenerate emptyStore 0 1111 "ann@shop.test").2 ∧
      ∃ user,
        userFindOne
            (UserSignup (UserOtpGenerate emptyStore 0 1111 "ann@shop.test").2 1000
              "ann@shop.test" (some 1111) "ann" "h1").2 "ann@shop.test" = some user ∧
          user.otp = none ∧ user.otpExpiration = none :=
  ⟨by decide,
    (otp_fields_after_success (UserOtpGenerate emptyStore 0 1111 "ann@shop.test").2 1000
      "ann@shop.test" (some 1111) "ann" "h1" (by decide)).1 (by decide)⟩

end Stacky
